import Mathlib

set_option maxHeartbeats 1000000

/-!
Verification development for the gesture-to-animation physics controller of the
3d-model repository.  The repository consists of five near-duplicate variants of
one React-Three-Fiber component:

* `AppV1`          — first variant in `src/App.jsx`: bounded drag model with
                     clamped `targetScroll`, idle decay, lerped limb overlay,
                     unconditional `mixer.setTime`.
* `AppV2`          — second variant in `src/App.jsx`: momentum model with
                     unclamped `targetScroll`, one-shot hand gesture, looping
                     (modulo) mixer time, absolute limb set.
* `RefinedVariant` — first variant in `unnamed/part_001`: like `AppV2` but with
                     frame-rate-independent damping (`1 - exp(-10*delta)`) and
                     delta-scaled lerp factors.
* `WheelVariant`   — second variant in `unnamed/part_001`: wheel-driven bounded
                     scrub, clamped `targetScroll`, unconditional `mixer.setTime`.
* `ClickVariant`   — `unnamed/part_000`: click-triggered one-shot clip playback.

JavaScript numbers are modelled as exact rationals (`ℚ`); the transcendental
library calls `Math.sin` and `Math.exp` are passed in as oracle function
parameters (`sinQ`, `expQ`) so that every theorem below holds for every possible
value of those calls; `Math.PI` is the exact rational value of the IEEE-754
double that `Math.PI` denotes.  Scene-node effects (mixer time cursor, bone
rotation, ball rotations) are part of the state or exposed as explicit
per-frame write functions.
-/

/-- Exact rational value of the IEEE-754 double `Math.PI`
(`7074237752028440 * 2 ^ (-51)`). -/
def mathPI : ℚ := 884279719003555 / 281474976710656

/-- `THREE.MathUtils.lerp(x, y, t) = (1 - t) * x + t * y`. -/
def lerp (x y t : ℚ) : ℚ := (1 - t) * x + t * y

/-- `THREE.MathUtils.clamp(value, min, max) = Math.max(min, Math.min(max, value))`. -/
def clamp (value lo hi : ℚ) : ℚ := max lo (min hi value)

/-- Truncation toward zero, as used by the JavaScript `%` remainder operator. -/
def qtrunc (q : ℚ) : ℤ := if 0 ≤ q then ⌊q⌋ else ⌈q⌉

/-- JavaScript remainder `a % b` on finite numbers with `b ≠ 0`:
`a - b * trunc(a / b)` (the result carries the sign of the dividend).
For `b = 0` JavaScript yields NaN; `ℚ` division by zero makes this `a`,
and no theorem below uses that case. -/
def jsMod (a b : ℚ) : ℚ := a - b * (qtrunc (a / b) : ℚ)

/-- Looping-mode mixer time `((x % m) + m) % m` from the source. -/
def loopedTime (x m : ℚ) : ℚ := jsMod (jsMod x m + m) m

/-- Target rotation offset shared by every variant:
`motion > 0 ? motion * angleUp : motion * angleDown` with
`angleUp = 90 * (Math.PI / 180)` and `angleDown = 20 * (Math.PI / 180)`. -/
def targetRotationXOf (motion : ℚ) : ℚ :=
  if motion > 0 then motion * (90 * (mathPI / 180)) else motion * (20 * (mathPI / 180))

/-- Arm lift target `motion > 0 ? motion * 0.2 : motion * 0.1`. -/
def armLiftOf (motion : ℚ) : ℚ := if motion > 0 then motion * 0.2 else motion * 0.1

/-- Wrist lift target `motion > 0 ? motion * 0.1 : motion * 0.05`. -/
def wristLiftOf (motion : ℚ) : ℚ := if motion > 0 then motion * 0.1 else motion * 0.05

/-- A bone node handle: the transform components the frame updater writes. -/
structure LimbNode where
  rotationX : ℚ
  positionY : ℚ
  deriving DecidableEq

namespace AppV1

/-- Physics record of the first `src/App.jsx` variant, together with the scene
role bindings the frame updater writes (left-arm chain and ball rotations). -/
structure State where
  scrollPos : ℚ
  targetScroll : ℚ
  maxTime : ℚ
  spinVelocity : ℚ
  targetSpinVelocity : ℚ
  isDragging : Bool
  lastY : ℚ
  lastTime : ℚ
  dragSpeed : ℚ
  handOffset : ℚ
  leftArm : Option LimbNode
  leftWrist : Option LimbNode
  leftArmBaseRotationX : ℚ
  balls : List ℚ
  deriving DecidableEq

/-- Initial physics record after load: all scalars zero except `maxTime`,
which is read once from the loaded clip; bindings come from the scene
traversal. -/
def initState (clipDuration : ℚ) (arm wrist : Option LimbNode) (baseX : ℚ)
    (ballList : List ℚ) : State :=
  { scrollPos := 0, targetScroll := 0, maxTime := clipDuration,
    spinVelocity := 0, targetSpinVelocity := 0, isDragging := false,
    lastY := 0, lastTime := 0, dragSpeed := 0, handOffset := 0,
    leftArm := arm, leftWrist := wrist, leftArmBaseRotationX := baseX,
    balls := ballList }

/-- `handleStart` (mousedown / touchstart): begin a drag session. -/
def handleStart (y t : ℚ) (s : State) : State :=
  { s with isDragging := true, lastY := y, lastTime := t, dragSpeed := 0 }

/-- `handleMove` (mousemove / touchmove): accumulate the displacement-model
deltas into `targetScroll` (clamped to `[0, maxTime]` by the two guard
statements) and `handOffset` (clamped to `[-1, 1]`). -/
def handleMove (y t : ℚ) (s : State) : State :=
  if s.isDragging then
    let deltaTime := t - s.lastTime
    let deltaY := y - s.lastY
    let speed := |deltaY| / max deltaTime 1
    let interactionScale : ℚ := 1 / 250
    let movement := -deltaY * interactionScale
    let targetScroll0 := s.targetScroll + movement * s.maxTime
    let handOffset0 := s.handOffset + movement
    let targetScroll1 := if targetScroll0 < 0 then 0 else targetScroll0
    let targetScroll2 := if targetScroll1 > s.maxTime then s.maxTime else targetScroll1
    let handOffset1 := clamp handOffset0 (-1) 1
    { s with dragSpeed := speed, lastY := y, lastTime := t,
             targetScroll := targetScroll2, handOffset := handOffset1,
             targetSpinVelocity := deltaY * 0.1 * 0.5 }
  else s

/-- `handleEnd` (mouseup / touchend / touchcancel). -/
def handleEnd (s : State) : State :=
  { s with isDragging := false, dragSpeed := 0 }

/-- One invocation of the `useFrame` callback (this variant uses only fixed
per-frame factors, so the elapsed delta does not appear). -/
def useFrameStep (s : State) : State :=
  let targetScroll := if s.isDragging then s.targetScroll else lerp s.targetScroll 0 0.08
  let handOffset := if s.isDragging then s.handOffset else lerp s.handOffset 0 0.08
  let scrollPos := lerp s.scrollPos targetScroll 0.15
  let motion := clamp handOffset (-1) 1
  let leftArm := s.leftArm.map fun l =>
    { rotationX := lerp l.rotationX (s.leftArmBaseRotationX + targetRotationXOf motion) 0.2,
      positionY := lerp l.positionY (armLiftOf motion) 0.1 }
  let leftWrist := s.leftWrist.map fun w =>
    { w with positionY := lerp w.positionY (wristLiftOf motion) 0.1 }
  let spinVelocity := s.spinVelocity + (s.targetSpinVelocity - s.spinVelocity) * 0.05
  let targetSpinVelocity := s.targetSpinVelocity * 0.95
  let balls := s.balls.map fun r => r + spinVelocity
  { s with targetScroll := targetScroll, handOffset := handOffset, scrollPos := scrollPos,
           leftArm := leftArm, leftWrist := leftWrist,
           spinVelocity := spinVelocity, targetSpinVelocity := targetSpinVelocity,
           balls := balls }

/-- The mixer time this variant writes during a frame: `if (mixer)
mixer.setTime(p.scrollPos)` — unconditionally whenever a mixer exists,
with no `maxTime > 0` guard. -/
def useFrameMixerWrite (hasMixer : Bool) (s : State) : Option ℚ :=
  if hasMixer then some (useFrameStep s).scrollPos else none

/-- External events delivered to this variant. -/
inductive Event where
  | start (y t : ℚ)
  | move (y t : ℚ)
  | stop
  | frame

/-- Event dispatch. -/
def step : Event → State → State
  | .start y t, s => handleStart y t s
  | .move y t, s => handleMove y t s
  | .stop, s => handleEnd s
  | .frame, s => useFrameStep s

/-- Run a list of events from a state. -/
def run (s : State) : List Event → State
  | [] => s
  | e :: es => run (step e s) es

/-- Apply a list of `(y, t)` move samples. -/
def runMoves (s : State) : List (ℚ × ℚ) → State
  | [] => s
  | m :: ms => runMoves (handleMove m.1 m.2 s) ms

end AppV1

namespace AppV2

/-- Physics record of the second `src/App.jsx` variant: adds release momentum
(`scrollVelocity`), the one-shot hand-gesture sub-state, and the secondary
smoothing stage `smoothMotion`. -/
structure State where
  scrollPos : ℚ
  targetScroll : ℚ
  maxTime : ℚ
  scrollVelocity : ℚ
  spinVelocity : ℚ
  targetSpinVelocity : ℚ
  isDragging : Bool
  lastY : ℚ
  startY : ℚ
  lastTime : ℚ
  dragSpeed : ℚ
  handOffset : ℚ
  smoothMotion : ℚ
  handInteractionTriggered : Bool
  handInteractionProgress : ℚ
  handInteractionDirection : ℚ
  leftArm : Option LimbNode
  leftWrist : Option LimbNode
  leftArmBaseRotationX : ℚ
  balls : List ℚ
  deriving DecidableEq

/-- `handleStart`: begin a drag session, re-arming the one-shot hand gesture. -/
def handleStart (y t : ℚ) (s : State) : State :=
  { s with isDragging := true, handInteractionTriggered := false,
           handInteractionProgress := 0, lastY := y, startY := y,
           lastTime := t, dragSpeed := 0 }

/-- `handleMove`: accumulate the (unclamped) `targetScroll` delta, arm the
one-shot hand gesture once per drag when the cumulative displacement from
`startY` exceeds 20 pixels, and refresh `scrollVelocity` and the ball-spin
target. -/
def handleMove (y t : ℚ) (s : State) : State :=
  if s.isDragging then
    let deltaTime := t - s.lastTime
    let deltaY := y - s.lastY
    let speed := |deltaY| / max deltaTime 1
    let interactionScale : ℚ := 1 / 250
    let movement := -deltaY * interactionScale
    let timeDelta := movement * s.maxTime
    let totalDisplacement := y - s.startY
    let s1 := { s with dragSpeed := speed, lastY := y, lastTime := t,
                       targetScroll := s.targetScroll + timeDelta }
    let s2 :=
      if s.handInteractionTriggered then s1
      else if |totalDisplacement| > 20 then
        { s1 with handInteractionTriggered := true,
                  handInteractionDirection := if totalDisplacement < 0 then 1 else -1,
                  handInteractionProgress := 0 }
      else s1
    let s3 := if deltaTime > 0 then { s2 with scrollVelocity := timeDelta / (deltaTime / 16.6) }
              else s2
    { s3 with targetSpinVelocity := deltaY * 0.1 * 0.5 }
  else s

/-- `handleEnd`. -/
def handleEnd (s : State) : State :=
  { s with isDragging := false, dragSpeed := 0 }

/-- Updated one-shot progress computed by the frame callback. -/
def frameHandProgress (delta : ℚ) (s : State) : ℚ :=
  if s.handInteractionTriggered = true ∧ s.handInteractionProgress < 1 then
    s.handInteractionProgress + delta * 2.5
  else s.handInteractionProgress

/-- Hand offset computed by the frame callback; `sinQ` is the `Math.sin`
oracle. -/
def frameHandOffset (sinQ : ℚ → ℚ) (delta : ℚ) (s : State) : ℚ :=
  if s.handInteractionTriggered = true ∧ s.handInteractionProgress < 1 then
    sinQ (min (frameHandProgress delta s) 1 * mathPI) * s.handInteractionDirection
  else lerp s.handOffset 0 0.1

/-- The clamped smoothed motion factor this variant feeds the limb overlay. -/
def frameMotion (sinQ : ℚ → ℚ) (delta : ℚ) (s : State) : ℚ :=
  clamp (lerp s.smoothMotion (frameHandOffset sinQ delta s) 0.1) (-1) 1

/-- One invocation of the `useFrame` callback: release momentum, one-shot hand
animation, scroll damping, motion smoothing, absolute limb overlay, and ball
spin integration. -/
def useFrameStep (sinQ : ℚ → ℚ) (delta : ℚ) (s : State) : State :=
  let targetScroll := if s.isDragging then s.targetScroll else s.targetScroll + s.scrollVelocity
  let scrollVelocity := if s.isDragging then s.scrollVelocity * 0.8 else s.scrollVelocity * 0.95
  let handInteractionProgress := frameHandProgress delta s
  let handOffset := frameHandOffset sinQ delta s
  let scrollPos := lerp s.scrollPos targetScroll 0.1
  let smoothMotion := lerp s.smoothMotion handOffset 0.1
  let motion := clamp smoothMotion (-1) 1
  let leftArm := s.leftArm.map fun _ =>
    { rotationX := s.leftArmBaseRotationX + targetRotationXOf motion,
      positionY := armLiftOf motion }
  let leftWrist := s.leftWrist.map fun w => { w with positionY := wristLiftOf motion }
  let spinVelocity := s.spinVelocity + (s.targetSpinVelocity - s.spinVelocity) * 0.05
  let targetSpinVelocity := s.targetSpinVelocity * 0.95
  let balls := s.balls.map fun r => r + spinVelocity
  { s with targetScroll := targetScroll, scrollVelocity := scrollVelocity,
           handInteractionProgress := handInteractionProgress, handOffset := handOffset,
           scrollPos := scrollPos, smoothMotion := smoothMotion,
           leftArm := leftArm, leftWrist := leftWrist,
           spinVelocity := spinVelocity, targetSpinVelocity := targetSpinVelocity,
           balls := balls }

/-- The mixer time this variant writes during a frame:
`if (mixer && p.maxTime > 0) mixer.setTime(((p.scrollPos % p.maxTime) + p.maxTime) % p.maxTime)`. -/
def useFrameMixerWrite (hasMixer : Bool) (sinQ : ℚ → ℚ) (delta : ℚ) (s : State) : Option ℚ :=
  if hasMixer = true ∧ 0 < s.maxTime then
    some (loopedTime (useFrameStep sinQ delta s).scrollPos s.maxTime)
  else none

/-- Events inside one drag session: move samples and frame ticks. -/
inductive DragEvent where
  | move (y t : ℚ)
  | frame (delta : ℚ)

/-- Session event dispatch. -/
def dragStep (sinQ : ℚ → ℚ) : DragEvent → State → State
  | .move y t, s => handleMove y t s
  | .frame delta, s => useFrameStep sinQ delta s

/-- Number of events at which `handInteractionTriggered` transitions from
`false` to `true` along a session. -/
def trigFlips (sinQ : ℚ → ℚ) : State → List DragEvent → ℕ
  | _, [] => 0
  | s, e :: es =>
    let s' := dragStep sinQ e s
    (if s.handInteractionTriggered = false ∧ s'.handInteractionTriggered = true then 1 else 0)
      + trigFlips sinQ s' es

end AppV2

namespace RefinedVariant

/-- Physics record of the first `unnamed/part_001` variant.  The fields
`scrollVelocity` and `dragSpeed` are declared in the source record but never
written by this variant's handlers. -/
structure State where
  scrollPos : ℚ
  targetScroll : ℚ
  maxTime : ℚ
  scrollVelocity : ℚ
  spinVelocity : ℚ
  targetSpinVelocity : ℚ
  isDragging : Bool
  lastY : ℚ
  startY : ℚ
  dragSpeed : ℚ
  handOffset : ℚ
  smoothMotion : ℚ
  handInteractionTriggered : Bool
  handInteractionProgress : ℚ
  handInteractionDirection : ℚ
  leftArm : Option LimbNode
  leftWrist : Option LimbNode
  leftArmBaseRotationX : ℚ
  balls : List ℚ
  deriving DecidableEq

/-- `handleStart`. -/
def handleStart (y : ℚ) (s : State) : State :=
  { s with isDragging := true, handInteractionTriggered := false,
           handInteractionProgress := 0, lastY := y, startY := y }

/-- `handleMove`: unclamped `targetScroll` accumulation, one-shot trigger
logic, ball-spin target (`ballSpinMultiplier = 0.005`). -/
def handleMove (y : ℚ) (s : State) : State :=
  if s.isDragging then
    let deltaY := y - s.lastY
    let interactionScale : ℚ := 1 / 250
    let movement := -deltaY * interactionScale
    let totalDisplacement := y - s.startY
    let s1 := { s with lastY := y, targetScroll := s.targetScroll + movement * s.maxTime }
    let s2 :=
      if s.handInteractionTriggered then s1
      else if |totalDisplacement| > 20 then
        { s1 with handInteractionTriggered := true,
                  handInteractionDirection := if totalDisplacement < 0 then 1 else -1,
                  handInteractionProgress := 0 }
      else s1
    { s2 with targetSpinVelocity := deltaY * 0.005 * 0.5 }
  else s

/-- `handleEnd` of this variant clears only the drag flag. -/
def handleEnd (s : State) : State :=
  { s with isDragging := false }

/-- Updated one-shot progress computed by the frame callback. -/
def frameHandProgress (delta : ℚ) (s : State) : ℚ :=
  if s.handInteractionTriggered = true ∧ s.handInteractionProgress < 1 then
    s.handInteractionProgress + delta * 2.5
  else s.handInteractionProgress

/-- Hand offset computed by the frame callback; `sinQ` is the `Math.sin`
oracle. -/
def frameHandOffset (sinQ : ℚ → ℚ) (delta : ℚ) (s : State) : ℚ :=
  if s.handInteractionTriggered = true ∧ s.handInteractionProgress < 1 then
    sinQ (min (frameHandProgress delta s) 1 * mathPI) * s.handInteractionDirection
  else lerp s.handOffset 0 (delta * 5)

/-- The clamped smoothed motion factor this variant feeds the limb overlay. -/
def frameMotion (sinQ : ℚ → ℚ) (delta : ℚ) (s : State) : ℚ :=
  clamp (lerp s.smoothMotion (frameHandOffset sinQ delta s) (delta * 10)) (-1) 1

/-- One invocation of the `useFrame` callback.  `expQ` is the `Math.exp`
oracle: the source damping factor is `1 - Math.exp(-10 * delta)`. -/
def useFrameStep (sinQ expQ : ℚ → ℚ) (delta : ℚ) (s : State) : State :=
  let dampFactor := 1 - expQ (-10 * delta)
  let scrollPos := lerp s.scrollPos s.targetScroll dampFactor
  let handInteractionProgress := frameHandProgress delta s
  let handOffset := frameHandOffset sinQ delta s
  let smoothMotion := lerp s.smoothMotion handOffset (delta * 10)
  let motion := clamp smoothMotion (-1) 1
  let leftArm := s.leftArm.map fun _ =>
    { rotationX := s.leftArmBaseRotationX + targetRotationXOf motion,
      positionY := armLiftOf motion }
  let leftWrist := s.leftWrist.map fun w => { w with positionY := wristLiftOf motion }
  let spinVelocity := lerp s.spinVelocity s.targetSpinVelocity (delta * 10)
  let targetSpinVelocity := lerp s.targetSpinVelocity 0 (delta * 2)
  let balls := s.balls.map fun r => r + spinVelocity
  { s with scrollPos := scrollPos,
           handInteractionProgress := handInteractionProgress, handOffset := handOffset,
           smoothMotion := smoothMotion, leftArm := leftArm, leftWrist := leftWrist,
           spinVelocity := spinVelocity, targetSpinVelocity := targetSpinVelocity,
           balls := balls }

/-- The mixer time this variant writes during a frame (guarded by
`mixer && p.maxTime > 0`, looping modulo form). -/
def useFrameMixerWrite (hasMixer : Bool) (sinQ expQ : ℚ → ℚ) (delta : ℚ) (s : State) : Option ℚ :=
  if hasMixer = true ∧ 0 < s.maxTime then
    some (loopedTime (useFrameStep sinQ expQ delta s).scrollPos s.maxTime)
  else none

end RefinedVariant

namespace WheelVariant

/-- Physics record of the second `unnamed/part_001` variant (wheel-driven
bounded scrub). -/
structure State where
  scrollPos : ℚ
  targetScroll : ℚ
  maxTime : ℚ
  spinVelocity : ℚ
  targetSpinVelocity : ℚ
  balls : List ℚ
  deriving DecidableEq

/-- Initial physics record with `maxTime` read once from the loaded clip. -/
def initState (clipDuration : ℚ) (ballList : List ℚ) : State :=
  { scrollPos := 0, targetScroll := 0, maxTime := clipDuration,
    spinVelocity := 0, targetSpinVelocity := 0, balls := ballList }

/-- `handleScroll` (wheel): `targetScroll += e.deltaY * 0.001`, clamped to
`[0, maxTime]` by the two guard statements; `targetSpinVelocity = e.deltaY * 0.0005`. -/
def handleScroll (deltaY : ℚ) (s : State) : State :=
  let targetScroll0 := s.targetScroll + deltaY * 0.001
  let targetScroll1 := if targetScroll0 < 0 then 0 else targetScroll0
  let targetScroll2 := if targetScroll1 > s.maxTime then s.maxTime else targetScroll1
  { s with targetScroll := targetScroll2, targetSpinVelocity := deltaY * 0.0005 }

/-- One invocation of the `useFrame` callback. -/
def useFrameStep (s : State) : State :=
  let scrollPos := lerp s.scrollPos s.targetScroll 0.08
  let spinVelocity := s.spinVelocity + (s.targetSpinVelocity - s.spinVelocity) * 0.05
  let targetSpinVelocity := s.targetSpinVelocity * 0.95
  let balls := s.balls.map fun r => r + spinVelocity
  { s with scrollPos := scrollPos, spinVelocity := spinVelocity,
           targetSpinVelocity := targetSpinVelocity, balls := balls }

/-- The mixer time this variant writes during a frame: `if (mixer)
mixer.setTime(p.scrollPos)`, unconditional in `maxTime`. -/
def useFrameMixerWrite (hasMixer : Bool) (s : State) : Option ℚ :=
  if hasMixer then some (useFrameStep s).scrollPos else none

/-- External events delivered to this variant. -/
inductive Event where
  | wheel (deltaY : ℚ)
  | frame

/-- Event dispatch. -/
def step : Event → State → State
  | .wheel deltaY, s => handleScroll deltaY s
  | .frame, s => useFrameStep s

/-- Run a list of events from a state. -/
def run (s : State) : List Event → State
  | [] => s
  | e :: es => run (step e s) es

end WheelVariant

namespace ClickVariant

/-- The observable configuration of one `THREE.AnimationAction`. -/
structure ClipAction where
  playing : Bool
  loopOnce : Bool
  clampWhenFinished : Bool
  fadedIn : Bool
  deriving DecidableEq

/-- `action.stop()`. -/
def stopAction (a : ClipAction) : ClipAction := { a with playing := false }

/-- `action.setLoop(THREE.LoopOnce, 1); action.clampWhenFinished = true;
action.reset().fadeIn(0.5).play()`. -/
def playOnceAction (a : ClipAction) : ClipAction :=
  { a with loopOnce := true, clampWhenFinished := true, fadedIn := true, playing := true }

/-- A clip action that has never been configured (fresh from
`mixer.clipAction`). -/
def freshAction : ClipAction :=
  { playing := false, loopOnce := false, clampWhenFinished := false, fadedIn := false }

/-- State of the `unnamed/part_000` trigger component: the actions record
produced by `useAnimations` (`Object.values(actions)`, head = the action of
`names[0]`) and the memo-cached fallback action `mixer.clipAction(clip, scene)`
(created only if the named lookup fails, and then reused by every later
click because `clipAction` memoizes per clip and root). -/
structure State where
  actionsList : List ClipAction
  fallback : Option ClipAction
  deriving DecidableEq

/-- `handleClick`: if animations and a mixer exist, stop every action in the
actions record, then start the first named action in play-once mode, falling
back to the mixer-created action when the record is empty. -/
def handleClick (hasAnimations hasMixer : Bool) (s : State) : State :=
  if hasAnimations = true ∧ hasMixer = true then
    let stopped := s.actionsList.map stopAction
    match stopped with
    | a :: rest => { s with actionsList := playOnceAction a :: rest }
    | [] => { s with fallback := some (playOnceAction (s.fallback.getD freshAction)) }
  else s

/-- Events of the trigger component: clicks, and playback-finished
notifications from the mixer (which stop the corresponding action). -/
inductive TEvent where
  | click
  | finishNamed (i : ℕ)
  | finishFallback

/-- Event dispatch. -/
def tstep (hasAnimations hasMixer : Bool) : TEvent → State → State
  | .click, s => handleClick hasAnimations hasMixer s
  | .finishNamed i, s =>
      { s with actionsList := s.actionsList.set i (stopAction (s.actionsList.getD i freshAction)) }
  | .finishFallback, s => { s with fallback := s.fallback.map stopAction }

/-- Run a list of events from a state. -/
def trun (hasAnimations hasMixer : Bool) (s : State) : List TEvent → State
  | [] => s
  | e :: es => trun hasAnimations hasMixer (tstep hasAnimations hasMixer e s) es

/-- Number of currently playing clip actions. -/
def countPlaying (s : State) : ℕ :=
  s.actionsList.countP (fun a => a.playing) +
    (match s.fallback with
     | some a => if a.playing then 1 else 0
     | none => 0)

/-- Invariant tying the two playback paths together: at most one action plays,
and the fallback action exists only when the actions record is empty. -/
def PlayInv (s : State) : Prop :=
  countPlaying s ≤ 1 ∧ (s.actionsList = [] ∨ s.fallback = none)

end ClickVariant

/-- The motion factor the first `App.jsx` variant feeds its limb overlay during
a frame (the clamp of the possibly idle-decayed hand offset). -/
def AppV1.frameMotion (s : AppV1.State) : ℚ :=
  clamp (if s.isDragging then s.handOffset else lerp s.handOffset 0 0.08) (-1) 1

/-- Boundedness invariant for the clamped variants: `targetScroll` and
`scrollPos` lie in `[0, clipDuration]` and `maxTime` still holds the clip
duration. -/
def AppV1.ScrollBounded (d : ℚ) (s : AppV1.State) : Prop :=
  s.maxTime = d ∧ 0 ≤ s.targetScroll ∧ s.targetScroll ≤ d ∧
    0 ≤ s.scrollPos ∧ s.scrollPos ≤ d

/-- Boundedness invariant for the wheel variant. -/
def WheelVariant.ScrollBounded (d : ℚ) (s : WheelVariant.State) : Prop :=
  s.maxTime = d ∧ 0 ≤ s.targetScroll ∧ s.targetScroll ≤ d ∧
    0 ≤ s.scrollPos ∧ s.scrollPos ≤ d

/-- Weighted norm of the ball-spin subsystem; it contracts by `39/40` per
frame under the `0.05` / `0.95` update. -/
def AppV1.spinEnergy (s : AppV1.State) : ℚ :=
  |s.spinVelocity| + 2 * |s.targetSpinVelocity|

/-- All-zero physics record of the first `App.jsx` variant. -/
def AppV1.mkState : AppV1.State :=
  { scrollPos := 0, targetScroll := 0, maxTime := 0, spinVelocity := 0,
    targetSpinVelocity := 0, isDragging := false, lastY := 0, lastTime := 0,
    dragSpeed := 0, handOffset := 0, leftArm := none, leftWrist := none,
    leftArmBaseRotationX := 0, balls := [] }

/-- All-zero physics record of the second `App.jsx` variant. -/
def AppV2.mkState : AppV2.State :=
  { scrollPos := 0, targetScroll := 0, maxTime := 0, scrollVelocity := 0,
    spinVelocity := 0, targetSpinVelocity := 0, isDragging := false, lastY := 0,
    startY := 0, lastTime := 0, dragSpeed := 0, handOffset := 0, smoothMotion := 0,
    handInteractionTriggered := false, handInteractionProgress := 0,
    handInteractionDirection := 0, leftArm := none, leftWrist := none,
    leftArmBaseRotationX := 0, balls := [] }

/-- All-zero physics record of the refined variant. -/
def RefinedVariant.mkState : RefinedVariant.State :=
  { scrollPos := 0, targetScroll := 0, maxTime := 0, scrollVelocity := 0,
    spinVelocity := 0, targetSpinVelocity := 0, isDragging := false, lastY := 0,
    startY := 0, dragSpeed := 0, handOffset := 0, smoothMotion := 0,
    handInteractionTriggered := false, handInteractionProgress := 0,
    handInteractionDirection := 0, leftArm := none, leftWrist := none,
    leftArmBaseRotationX := 0, balls := [] }

/-- A mid-frame state of the first `App.jsx` variant at the peak of an upward
hand gesture: dragging, hand offset saturated at `1`, a bound left forearm at
its base pose. -/
def c2State : AppV1.State :=
  { AppV1.mkState with isDragging := true, handOffset := 1, maxTime := 10,
                       leftArm := some { rotationX := 0, positionY := 0 } }

/-- A refined-variant state with a bound left forearm, used to instantiate the
absolute-set limb theorem. -/
def c2RefState : RefinedVariant.State :=
  { RefinedVariant.mkState with smoothMotion := 1, handOffset := 1,
                                leftArmBaseRotationX := 3,
                                leftArm := some { rotationX := 7, positionY := 2 } }

/-- A no-clip state (`maxTime = 0`) of the first `App.jsx` variant with a
nonzero scroll position. -/
def c4State : AppV1.State := { AppV1.mkState with scrollPos := 4, maxTime := 0 }

/-- A pre-drag state of the first `App.jsx` variant whose `targetScroll` is
`5` (nonzero), with a 10-second clip. -/
def c5Start : AppV1.State := { AppV1.mkState with targetScroll := 5, maxTime := 10 }

/-- A net-zero drag: down 250 pixels and back up 250 pixels (the pointer ends
at its starting height, so the move deltas sum to zero). -/
def c5Moves : List (ℚ × ℚ) := [(350, 1), (100, 2)]

/-- The state reached from `c5Start` by that net-zero drag session. -/
def c5Post : AppV1.State :=
  AppV1.handleEnd (AppV1.runMoves (AppV1.handleStart 100 0 c5Start) c5Moves)

/-- A dragging state of the first `App.jsx` variant with nonzero velocities. -/
def c8V1 : AppV1.State :=
  { AppV1.mkState with isDragging := true, spinVelocity := 7,
                       targetSpinVelocity := 3, dragSpeed := 2 }

/-- A dragging state of the second `App.jsx` variant with nonzero release
momentum. -/
def c8V2 : AppV2.State := { AppV2.mkState with isDragging := true, scrollVelocity := 2 }

/-- A dragging state of the refined variant with a nonzero recorded drag
speed. -/
def c8Ref : RefinedVariant.State :=
  { RefinedVariant.mkState with isDragging := true, dragSpeed := 5 }

/-- A mid-session state of the second `App.jsx` variant whose one-shot hand
gesture has already fired. -/
def c3State : AppV2.State :=
  { AppV2.mkState with isDragging := true, handInteractionTriggered := true,
                       handInteractionDirection := 1, handInteractionProgress := 1/2 }

/-- A second-`App.jsx`-variant state with a bound left forearm away from its
base pose, used to instantiate the absolute-set limb theorem. -/
def c2A2State : AppV2.State :=
  { AppV2.mkState with smoothMotion := 1, handOffset := 1, leftArmBaseRotationX := 2,
                       leftArm := some { rotationX := 1, positionY := 0 } }

/-- All-zero physics record of the wheel variant. -/
def WheelVariant.mkState : WheelVariant.State :=
  { scrollPos := 0, targetScroll := 0, maxTime := 0, spinVelocity := 0,
    targetSpinVelocity := 0, balls := [] }

/-- Events inside one drag session of the refined variant: move samples and
frame ticks. -/
inductive RefinedVariant.DragEvent where
  | move (y : ℚ)
  | frame (delta : ℚ)

/-- Session event dispatch for the refined variant. -/
def RefinedVariant.dragStep (sinQ expQ : ℚ → ℚ) :
    RefinedVariant.DragEvent → RefinedVariant.State → RefinedVariant.State
  | .move y, s => RefinedVariant.handleMove y s
  | .frame delta, s => RefinedVariant.useFrameStep sinQ expQ delta s

/-- Number of events at which the refined variant's
`handInteractionTriggered` transitions from `false` to `true` along a
session. -/
def RefinedVariant.trigFlips (sinQ expQ : ℚ → ℚ) :
    RefinedVariant.State → List RefinedVariant.DragEvent → ℕ
  | _, [] => 0
  | s, e :: es =>
    let s' := RefinedVariant.dragStep sinQ expQ e s
    (if s.handInteractionTriggered = false ∧ s'.handInteractionTriggered = true then 1 else 0)
      + RefinedVariant.trigFlips sinQ expQ s' es

/-- A mid-session state of the refined variant whose one-shot hand gesture
has already fired. -/
def c3RefState : RefinedVariant.State :=
  { RefinedVariant.mkState with isDragging := true, handInteractionTriggered := true,
                                handInteractionDirection := 1,
                                handInteractionProgress := 1/2 }

/-- Weighted norm of the refined variant's ball-spin subsystem; under the
delta-scaled update with per-frame delta `d ∈ (0, 1/10]` it contracts by
`1 - d` per frame. -/
def RefinedVariant.spinEnergy (s : RefinedVariant.State) : ℚ :=
  |s.spinVelocity| + 10 * |s.targetSpinVelocity|

/-! General facts about `lerp`, `clamp`, `jsMod` and iterated decay. -/

theorem lerp_bounds {a b M t : ℚ} (ha : 0 ≤ a) (haM : a ≤ M) (hb : 0 ≤ b) (hbM : b ≤ M)
    (ht0 : 0 ≤ t) (ht1 : t ≤ 1) : 0 ≤ lerp a b t ∧ lerp a b t ≤ M := by
  unfold lerp
  constructor <;> nlinarith

theorem AppV1.handleStart_scrollBounded {d : ℚ} (y t : ℚ) (s : AppV1.State)
    (h : AppV1.ScrollBounded d s) : AppV1.ScrollBounded d (AppV1.handleStart y t s) := h

theorem AppV1.handleEnd_scrollBounded {d : ℚ} (s : AppV1.State)
    (h : AppV1.ScrollBounded d s) : AppV1.ScrollBounded d (AppV1.handleEnd s) := h

theorem AppV1.handleMove_scrollBounded {d : ℚ} (hd : 0 ≤ d) (y t : ℚ) (s : AppV1.State)
    (h : AppV1.ScrollBounded d s) : AppV1.ScrollBounded d (AppV1.handleMove y t s) := by
  obtain ⟨hm, h1, h2, h3, h4⟩ := h
  unfold AppV1.handleMove
  split
  · subst hm
    refine ⟨rfl, ?_, ?_, h3, h4⟩ <;> simp only [AppV1.ScrollBounded] <;>
      split_ifs <;> linarith
  · exact ⟨hm, h1, h2, h3, h4⟩

theorem AppV1.useFrameStep_scrollBounded {d : ℚ} (hd : 0 ≤ d) (s : AppV1.State)
    (h : AppV1.ScrollBounded d s) : AppV1.ScrollBounded d (AppV1.useFrameStep s) := by
  obtain ⟨hm, h1, h2, h3, h4⟩ := h
  subst hm
  have htgt : 0 ≤ (if s.isDragging then s.targetScroll else lerp s.targetScroll 0 0.08) ∧
      (if s.isDragging then s.targetScroll else lerp s.targetScroll 0 0.08) ≤ s.maxTime := by
    split_ifs
    · exact ⟨h1, h2⟩
    · exact lerp_bounds h1 h2 le_rfl hd (by norm_num) (by norm_num)
  refine ⟨rfl, ?_, ?_, ?_, ?_⟩ <;> simp only [AppV1.useFrameStep]
  · exact htgt.1
  · exact htgt.2
  · exact (lerp_bounds h3 h4 htgt.1 htgt.2 (by norm_num) (by norm_num)).1
  · exact (lerp_bounds h3 h4 htgt.1 htgt.2 (by norm_num) (by norm_num)).2

theorem AppV1.step_scrollBounded {d : ℚ} (hd : 0 ≤ d) (e : AppV1.Event) (s : AppV1.State)
    (h : AppV1.ScrollBounded d s) : AppV1.ScrollBounded d (AppV1.step e s) := by
  cases e with
  | start y t => exact AppV1.handleStart_scrollBounded y t s h
  | move y t => exact AppV1.handleMove_scrollBounded hd y t s h
  | stop => exact AppV1.handleEnd_scrollBounded s h
  | frame => exact AppV1.useFrameStep_scrollBounded hd s h

theorem AppV1.run_scrollBounded {d : ℚ} (hd : 0 ≤ d) (es : List AppV1.Event)
    (s : AppV1.State) (h : AppV1.ScrollBounded d s) :
    AppV1.ScrollBounded d (AppV1.run s es) := by
  induction es generalizing s with
  | nil => exact h
  | cons e es ih => exact ih _ (AppV1.step_scrollBounded hd e s h)

theorem WheelVariant.handleScroll_scrollBounded {d : ℚ} (hd : 0 ≤ d) (deltaY : ℚ)
    (s : WheelVariant.State) (h : WheelVariant.ScrollBounded d s) :
    WheelVariant.ScrollBounded d (WheelVariant.handleScroll deltaY s) := by
  obtain ⟨hm, h1, h2, h3, h4⟩ := h
  subst hm
  refine ⟨rfl, ?_, ?_, h3, h4⟩ <;>
    simp only [WheelVariant.handleScroll, WheelVariant.ScrollBounded] <;>
    split_ifs <;> linarith

theorem WheelVariant.wheelFrame_scrollBounded {d : ℚ} (hd : 0 ≤ d)
    (s : WheelVariant.State) (h : WheelVariant.ScrollBounded d s) :
    WheelVariant.ScrollBounded d (WheelVariant.useFrameStep s) := by
  obtain ⟨hm, h1, h2, h3, h4⟩ := h
  subst hm
  refine ⟨rfl, h1, h2, ?_, ?_⟩ <;> simp only [WheelVariant.useFrameStep]
  · exact (lerp_bounds h3 h4 h1 h2 (by norm_num) (by norm_num)).1
  · exact (lerp_bounds h3 h4 h1 h2 (by norm_num) (by norm_num)).2

theorem WheelVariant.wheelRun_scrollBounded {d : ℚ} (hd : 0 ≤ d) (ws : List WheelVariant.Event)
    (s : WheelVariant.State) (h : WheelVariant.ScrollBounded d s) :
    WheelVariant.ScrollBounded d (WheelVariant.run s ws) := by
  induction ws generalizing s with
  | nil => exact h
  | cons e es ih =>
    cases e with
    | wheel deltaY => exact ih _ (WheelVariant.handleScroll_scrollBounded hd deltaY s h)
    | frame => exact ih _ (WheelVariant.wheelFrame_scrollBounded hd s h)

/-- Claim C1: in every bounded-mode variant (the clamped drag variant of
`src/App.jsx` and the clamped wheel variant of `unnamed/part_001`), for every
sequence of pointer-move or wheel deltas and frame updates starting from the
initial state with `clipDuration ≥ 0`, both `targetScroll` and `scrollPos`
remain in `[0, clipDuration]`: the move handler clamps `targetScroll` after
each accumulation, the idle decay lerps toward `0`, and the per-frame lerp of
`scrollPos` toward `targetScroll` keeps `scrollPos` inside the interval. -/
theorem C1_bounded_clamp_invariant (d : ℚ) (hd : 0 ≤ d)
    (arm wrist : Option LimbNode) (baseX : ℚ) (ballList1 ballList2 : List ℚ)
    (es : List AppV1.Event) (ws : List WheelVariant.Event) :
    (0 ≤ (AppV1.run (AppV1.initState d arm wrist baseX ballList1) es).targetScroll ∧
      (AppV1.run (AppV1.initState d arm wrist baseX ballList1) es).targetScroll ≤ d ∧
      0 ≤ (AppV1.run (AppV1.initState d arm wrist baseX ballList1) es).scrollPos ∧
      (AppV1.run (AppV1.initState d arm wrist baseX ballList1) es).scrollPos ≤ d) ∧
    (0 ≤ (WheelVariant.run (WheelVariant.initState d ballList2) ws).targetScroll ∧
      (WheelVariant.run (WheelVariant.initState d ballList2) ws).targetScroll ≤ d ∧
      0 ≤ (WheelVariant.run (WheelVariant.initState d ballList2) ws).scrollPos ∧
      (WheelVariant.run (WheelVariant.initState d ballList2) ws).scrollPos ≤ d) := by
  have hinit1 : AppV1.ScrollBounded d (AppV1.initState d arm wrist baseX ballList1) :=
    ⟨rfl, le_rfl, hd, le_rfl, hd⟩
  have hinit2 : WheelVariant.ScrollBounded d (WheelVariant.initState d ballList2) :=
    ⟨rfl, le_rfl, hd, le_rfl, hd⟩
  obtain ⟨-, a1, a2, a3, a4⟩ := AppV1.run_scrollBounded hd es _ hinit1
  obtain ⟨-, b1, b2, b3, b4⟩ := WheelVariant.wheelRun_scrollBounded hd ws _ hinit2
  exact ⟨⟨a1, a2, a3, a4⟩, ⟨b1, b2, b3, b4⟩⟩

/-- Witness for C1 at `clipDuration = 10` with a concrete drag-and-frame
sequence and a concrete wheel sequence. -/
theorem C1_bounded_clamp_invariant_witness :
    (0 : ℚ) ≤ 10 ∧
    ((0 ≤ (AppV1.run (AppV1.initState 10 none none 0 [])
        [AppV1.Event.start 100 0, AppV1.Event.move 350 1, AppV1.Event.frame,
         AppV1.Event.stop, AppV1.Event.frame]).targetScroll ∧
      (AppV1.run (AppV1.initState 10 none none 0 [])
        [AppV1.Event.start 100 0, AppV1.Event.move 350 1, AppV1.Event.frame,
         AppV1.Event.stop, AppV1.Event.frame]).targetScroll ≤ 10 ∧
      0 ≤ (AppV1.run (AppV1.initState 10 none none 0 [])
        [AppV1.Event.start 100 0, AppV1.Event.move 350 1, AppV1.Event.frame,
         AppV1.Event.stop, AppV1.Event.frame]).scrollPos ∧
      (AppV1.run (AppV1.initState 10 none none 0 [])
        [AppV1.Event.start 100 0, AppV1.Event.move 350 1, AppV1.Event.frame,
         AppV1.Event.stop, AppV1.Event.frame]).scrollPos ≤ 10) ∧
    (0 ≤ (WheelVariant.run (WheelVariant.initState 10 [])
        [WheelVariant.Event.wheel (-4000), WheelVariant.Event.frame,
         WheelVariant.Event.wheel 99999, WheelVariant.Event.frame]).targetScroll ∧
      (WheelVariant.run (WheelVariant.initState 10 [])
        [WheelVariant.Event.wheel (-4000), WheelVariant.Event.frame,
         WheelVariant.Event.wheel 99999, WheelVariant.Event.frame]).targetScroll ≤ 10 ∧
      0 ≤ (WheelVariant.run (WheelVariant.initState 10 [])
        [WheelVariant.Event.wheel (-4000), WheelVariant.Event.frame,
         WheelVariant.Event.wheel 99999, WheelVariant.Event.frame]).scrollPos ∧
      (WheelVariant.run (WheelVariant.initState 10 [])
        [WheelVariant.Event.wheel (-4000), WheelVariant.Event.frame,
         WheelVariant.Event.wheel 99999, WheelVariant.Event.frame]).scrollPos ≤ 10)) :=
  ⟨by norm_num,
   C1_bounded_clamp_invariant 10 (by norm_num) none none 0 [] []
     [AppV1.Event.start 100 0, AppV1.Event.move 350 1, AppV1.Event.frame,
      AppV1.Event.stop, AppV1.Event.frame]
     [WheelVariant.Event.wheel (-4000), WheelVariant.Event.frame,
      WheelVariant.Event.wheel 99999, WheelVariant.Event.frame]⟩

/-- Claim C10 (implicit): every pointer/touch move event delivered while
`isDragging` is false is a no-op — the move handler returns immediately and
leaves every field of the physics record unchanged, in all three drag-driven
variants. -/
theorem C10_move_noop_when_not_dragging (y t : ℚ)
    (s1 : AppV1.State) (s2 : AppV2.State) (sp : RefinedVariant.State)
    (h1 : s1.isDragging = false) (h2 : s2.isDragging = false)
    (h3 : sp.isDragging = false) :
    AppV1.handleMove y t s1 = s1 ∧ AppV2.handleMove y t s2 = s2 ∧
      RefinedVariant.handleMove y sp = sp := by
  refine ⟨?_, ?_, ?_⟩
  · simp [AppV1.handleMove, h1]
  · simp [AppV2.handleMove, h2]
  · simp [RefinedVariant.handleMove, h3]

/-- Witness for C10 at the all-zero (non-dragging) states. -/
theorem C10_move_noop_when_not_dragging_witness :
    (AppV1.mkState.isDragging = false ∧ AppV2.mkState.isDragging = false ∧
      RefinedVariant.mkState.isDragging = false) ∧
    (AppV1.handleMove 3 4 AppV1.mkState = AppV1.mkState ∧
      AppV2.handleMove 3 4 AppV2.mkState = AppV2.mkState ∧
      RefinedVariant.handleMove 3 RefinedVariant.mkState = RefinedVariant.mkState) :=
  ⟨⟨rfl, rfl, rfl⟩,
   C10_move_noop_when_not_dragging 3 4 AppV1.mkState AppV2.mkState RefinedVariant.mkState
     rfl rfl rfl⟩

/-- Counterexample to claim C8: the end handler does not reset the
speed/velocity fields of the physics record to zero — the first `App.jsx`
variant keeps `spinVelocity = 7` and `targetSpinVelocity = 3`, the second
keeps its release momentum `scrollVelocity = 2`, and the refined variant does
not even clear `dragSpeed`. -/
theorem C8_counterexample :
    (AppV1.handleEnd c8V1).spinVelocity ≠ 0 ∧
    (AppV1.handleEnd c8V1).targetSpinVelocity ≠ 0 ∧
    (AppV2.handleEnd c8V2).scrollVelocity ≠ 0 ∧
    (RefinedVariant.handleEnd c8Ref).dragSpeed ≠ 0 := by
  refine ⟨?_, ?_, ?_, ?_⟩ <;> decide

/-- Claim C8 as amended: on every pointer-up / touch-end / touch-cancel event
the end handler sets `isDragging` to false and resets `dragSpeed` to zero (the
refined variant resets only `isDragging`), leaving every other field of the
physics record — including `targetScroll`, `handOffset`, and all
spin/scroll velocities — unchanged. -/
theorem C8_amended_end_handler_effect (s1 : AppV1.State) (s2 : AppV2.State)
    (sp : RefinedVariant.State) :
    ((AppV1.handleEnd s1).isDragging = false ∧ (AppV1.handleEnd s1).dragSpeed = 0 ∧
      (AppV1.handleEnd s1).scrollPos = s1.scrollPos ∧
      (AppV1.handleEnd s1).targetScroll = s1.targetScroll ∧
      (AppV1.handleEnd s1).maxTime = s1.maxTime ∧
      (AppV1.handleEnd s1).spinVelocity = s1.spinVelocity ∧
      (AppV1.handleEnd s1).targetSpinVelocity = s1.targetSpinVelocity ∧
      (AppV1.handleEnd s1).lastY = s1.lastY ∧
      (AppV1.handleEnd s1).lastTime = s1.lastTime ∧
      (AppV1.handleEnd s1).handOffset = s1.handOffset ∧
      (AppV1.handleEnd s1).leftArm = s1.leftArm ∧
      (AppV1.handleEnd s1).leftWrist = s1.leftWrist ∧
      (AppV1.handleEnd s1).leftArmBaseRotationX = s1.leftArmBaseRotationX ∧
      (AppV1.handleEnd s1).balls = s1.balls) ∧
    ((AppV2.handleEnd s2).isDragging = false ∧ (AppV2.handleEnd s2).dragSpeed = 0 ∧
      (AppV2.handleEnd s2).scrollPos = s2.scrollPos ∧
      (AppV2.handleEnd s2).targetScroll = s2.targetScroll ∧
      (AppV2.handleEnd s2).maxTime = s2.maxTime ∧
      (AppV2.handleEnd s2).scrollVelocity = s2.scrollVelocity ∧
      (AppV2.handleEnd s2).spinVelocity = s2.spinVelocity ∧
      (AppV2.handleEnd s2).targetSpinVelocity = s2.targetSpinVelocity ∧
      (AppV2.handleEnd s2).lastY = s2.lastY ∧
      (AppV2.handleEnd s2).startY = s2.startY ∧
      (AppV2.handleEnd s2).lastTime = s2.lastTime ∧
      (AppV2.handleEnd s2).handOffset = s2.handOffset ∧
      (AppV2.handleEnd s2).smoothMotion = s2.smoothMotion ∧
      (AppV2.handleEnd s2).handInteractionTriggered = s2.handInteractionTriggered ∧
      (AppV2.handleEnd s2).handInteractionProgress = s2.handInteractionProgress ∧
      (AppV2.handleEnd s2).handInteractionDirection = s2.handInteractionDirection ∧
      (AppV2.handleEnd s2).leftArm = s2.leftArm ∧
      (AppV2.handleEnd s2).leftWrist = s2.leftWrist ∧
      (AppV2.handleEnd s2).leftArmBaseRotationX = s2.leftArmBaseRotationX ∧
      (AppV2.handleEnd s2).balls = s2.balls) ∧
    ((RefinedVariant.handleEnd sp).isDragging = false ∧
      (RefinedVariant.handleEnd sp).dragSpeed = sp.dragSpeed ∧
      (RefinedVariant.handleEnd sp).scrollPos = sp.scrollPos ∧
      (RefinedVariant.handleEnd sp).targetScroll = sp.targetScroll ∧
      (RefinedVariant.handleEnd sp).maxTime = sp.maxTime ∧
      (RefinedVariant.handleEnd sp).scrollVelocity = sp.scrollVelocity ∧
      (RefinedVariant.handleEnd sp).spinVelocity = sp.spinVelocity ∧
      (RefinedVariant.handleEnd sp).targetSpinVelocity = sp.targetSpinVelocity ∧
      (RefinedVariant.handleEnd sp).lastY = sp.lastY ∧
      (RefinedVariant.handleEnd sp).startY = sp.startY ∧
      (RefinedVariant.handleEnd sp).handOffset = sp.handOffset ∧
      (RefinedVariant.handleEnd sp).smoothMotion = sp.smoothMotion ∧
      (RefinedVariant.handleEnd sp).handInteractionTriggered = sp.handInteractionTriggered ∧
      (RefinedVariant.handleEnd sp).handInteractionProgress = sp.handInteractionProgress ∧
      (RefinedVariant.handleEnd sp).handInteractionDirection = sp.handInteractionDirection ∧
      (RefinedVariant.handleEnd sp).leftArm = sp.leftArm ∧
      (RefinedVariant.handleEnd sp).leftWrist = sp.leftWrist ∧
      (RefinedVariant.handleEnd sp).leftArmBaseRotationX = sp.leftArmBaseRotationX ∧
      (RefinedVariant.handleEnd sp).balls = sp.balls) := by
  simp [AppV1.handleEnd, AppV2.handleEnd, RefinedVariant.handleEnd]

/-- Counterexample to claim C2: in the first `App.jsx` variant the frame
update does not set the limb rotation absolutely — on a frame whose motion
factor is exactly `1` (hand offset saturated, dragging) with base rotation `0`
and previous rotation `0`, the resulting `rotation.x` is
`lerp(0, 0 + 90°, 0.2) = 18°`, not `baseRotation.x + 90°`. -/
theorem C2_counterexample :
    AppV1.frameMotion c2State = 1 ∧
    (AppV1.useFrameStep c2State).leftArm.map LimbNode.rotationX ≠
      some (c2State.leftArmBaseRotationX + 90 * (mathPI / 180)) := by
  constructor
  · norm_num [AppV1.frameMotion, c2State, AppV1.mkState, clamp, lerp]
  · norm_num [AppV1.useFrameStep, c2State, AppV1.mkState, clamp, lerp,
              targetRotationXOf, armLiftOf, mathPI]

/-- Claim C2 as amended: in the second `App.jsx` variant and the refined
variant, whenever a limb-chain binding exists the frame update sets the limb's
`rotation.x` absolutely to `baseRotation.x + targetAngle` with
`targetAngle = motion * 90°` for `motion > 0` and `motion * 20°` otherwise —
independent of the previous frame's rotation (the right-hand sides never
mention the old `LimbNode`), so `motion = 1` yields exactly
`baseRotation.x + 90°` and `motion = -1` exactly `baseRotation.x - 20°`.
In the first `App.jsx` variant, however, the frame lerps `rotation.x`
20% of the way toward `baseRotation.x + targetAngle` instead of setting it. -/
theorem C2_amended_absolute_limb_set (sinQ expQ : ℚ → ℚ) (delta : ℚ)
    (sp : RefinedVariant.State) (s2 : AppV2.State) (l l2 : LimbNode)
    (hp : sp.leftArm = some l) (h2 : s2.leftArm = some l2) :
    ((RefinedVariant.useFrameStep sinQ expQ delta sp).leftArm =
      some { rotationX :=
               sp.leftArmBaseRotationX +
                 targetRotationXOf (RefinedVariant.frameMotion sinQ delta sp),
             positionY := armLiftOf (RefinedVariant.frameMotion sinQ delta sp) }) ∧
    (RefinedVariant.frameMotion sinQ delta sp = 1 →
      (RefinedVariant.useFrameStep sinQ expQ delta sp).leftArm.map LimbNode.rotationX =
        some (sp.leftArmBaseRotationX + 90 * (mathPI / 180))) ∧
    (RefinedVariant.frameMotion sinQ delta sp = -1 →
      (RefinedVariant.useFrameStep sinQ expQ delta sp).leftArm.map LimbNode.rotationX =
        some (sp.leftArmBaseRotationX - 20 * (mathPI / 180))) ∧
    ((AppV2.useFrameStep sinQ delta s2).leftArm =
      some { rotationX :=
               s2.leftArmBaseRotationX + targetRotationXOf (AppV2.frameMotion sinQ delta s2),
             positionY := armLiftOf (AppV2.frameMotion sinQ delta s2) }) ∧
    (AppV2.frameMotion sinQ delta s2 = 1 →
      (AppV2.useFrameStep sinQ delta s2).leftArm.map LimbNode.rotationX =
        some (s2.leftArmBaseRotationX + 90 * (mathPI / 180))) ∧
    (AppV2.frameMotion sinQ delta s2 = -1 →
      (AppV2.useFrameStep sinQ delta s2).leftArm.map LimbNode.rotationX =
        some (s2.leftArmBaseRotationX - 20 * (mathPI / 180))) := by
  have habs : (RefinedVariant.useFrameStep sinQ expQ delta sp).leftArm =
      some { rotationX :=
               sp.leftArmBaseRotationX +
                 targetRotationXOf (RefinedVariant.frameMotion sinQ delta sp),
             positionY := armLiftOf (RefinedVariant.frameMotion sinQ delta sp) } := by
    simp [RefinedVariant.useFrameStep, RefinedVariant.frameMotion, hp]
  have habs2 : (AppV2.useFrameStep sinQ delta s2).leftArm =
      some { rotationX :=
               s2.leftArmBaseRotationX + targetRotationXOf (AppV2.frameMotion sinQ delta s2),
             positionY := armLiftOf (AppV2.frameMotion sinQ delta s2) } := by
    simp [AppV2.useFrameStep, AppV2.frameMotion, h2]
  refine ⟨habs, ?_, ?_, habs2, ?_, ?_⟩
  · intro hmot
    rw [habs, hmot]
    norm_num [targetRotationXOf]
  · intro hmot
    rw [habs, hmot]
    norm_num [targetRotationXOf]
    ring
  · intro hmot
    rw [habs2, hmot]
    norm_num [targetRotationXOf]
  · intro hmot
    rw [habs2, hmot]
    norm_num [targetRotationXOf]
    ring

/-- Witness for the amended C2 at concrete states with bound forearms (the
oracles instantiated by the zero function, `delta = 0`). -/
theorem C2_amended_absolute_limb_set_witness :
    (c2RefState.leftArm = some { rotationX := 7, positionY := 2 } ∧
      c2A2State.leftArm = some { rotationX := 1, positionY := 0 }) ∧
    (((RefinedVariant.useFrameStep (fun _ => 0) (fun _ => 0) 0 c2RefState).leftArm =
        some { rotationX :=
                 c2RefState.leftArmBaseRotationX +
                   targetRotationXOf (RefinedVariant.frameMotion (fun _ => 0) 0 c2RefState),
               positionY := armLiftOf (RefinedVariant.frameMotion (fun _ => 0) 0 c2RefState) }) ∧
      (RefinedVariant.frameMotion (fun _ => 0) 0 c2RefState = 1 →
        (RefinedVariant.useFrameStep (fun _ => 0) (fun _ => 0) 0 c2RefState).leftArm.map
            LimbNode.rotationX =
          some (c2RefState.leftArmBaseRotationX + 90 * (mathPI / 180))) ∧
      (RefinedVariant.frameMotion (fun _ => 0) 0 c2RefState = -1 →
        (RefinedVariant.useFrameStep (fun _ => 0) (fun _ => 0) 0 c2RefState).leftArm.map
            LimbNode.rotationX =
          some (c2RefState.leftArmBaseRotationX - 20 * (mathPI / 180))) ∧
      ((AppV2.useFrameStep (fun _ => 0) 0 c2A2State).leftArm =
        some { rotationX :=
                 c2A2State.leftArmBaseRotationX +
                   targetRotationXOf (AppV2.frameMotion (fun _ => 0) 0 c2A2State),
               positionY := armLiftOf (AppV2.frameMotion (fun _ => 0) 0 c2A2State) }) ∧
      (AppV2.frameMotion (fun _ => 0) 0 c2A2State = 1 →
        (AppV2.useFrameStep (fun _ => 0) 0 c2A2State).leftArm.map LimbNode.rotationX =
          some (c2A2State.leftArmBaseRotationX + 90 * (mathPI / 180))) ∧
      (AppV2.frameMotion (fun _ => 0) 0 c2A2State = -1 →
        (AppV2.useFrameStep (fun _ => 0) 0 c2A2State).leftArm.map LimbNode.rotationX =
          some (c2A2State.leftArmBaseRotationX - 20 * (mathPI / 180)))) :=
  ⟨⟨rfl, rfl⟩,
   C2_amended_absolute_limb_set (fun _ => 0) (fun _ => 0) 0 c2RefState c2A2State
     { rotationX := 7, positionY := 2 } { rotationX := 1, positionY := 0 } rfl rfl⟩

/-- Counterexample to claim C4: in the first `App.jsx` variant (and likewise
the wheel variant) the frame update does not skip the animation-clip scrub
when `clipDuration = 0` — with a mixer present it still sets the mixer time
cursor, here to the decayed-and-damped scroll position `17/5`. -/
theorem C4_counterexample :
    c4State.maxTime = 0 ∧ AppV1.useFrameMixerWrite true c4State = some (17/5) := by
  constructor
  · rfl
  · norm_num [AppV1.useFrameMixerWrite, AppV1.useFrameStep, c4State, AppV1.mkState, lerp]

/-- Claim C4 as amended: in every variant a missing limb binding disables
exactly the limb-overlay step and an empty ball list disables exactly the
per-ball rotation writes (the whole remaining state update is identical, so
the equations below replace only the skipped field; every function is total,
so no step raises); the `clipDuration = 0` guard on the mixer set-time exists
only in the looping variants (second `App.jsx` variant and refined variant) —
the bounded variants write the mixer time cursor unconditionally whenever a
mixer exists (see the counterexample). -/
theorem C4_amended_skip_policy (sinQ expQ : ℚ → ℚ) (delta : ℚ)
    (s sp : RefinedVariant.State) (s2 sb2 : AppV2.State) (s1 sb1 : AppV1.State)
    (sw : WheelVariant.State) (hasMixer : Bool)
    (h0 : s.maxTime = 0) (h2 : s2.maxTime = 0) :
    RefinedVariant.useFrameMixerWrite hasMixer sinQ expQ delta s = none ∧
    AppV2.useFrameMixerWrite hasMixer sinQ delta s2 = none ∧
    AppV1.useFrameMixerWrite true s1 = some ((AppV1.useFrameStep s1).scrollPos) ∧
    WheelVariant.useFrameMixerWrite true sw =
      some ((WheelVariant.useFrameStep sw).scrollPos) ∧
    RefinedVariant.useFrameStep sinQ expQ delta
        { sp with leftArm := none, leftWrist := none } =
      { RefinedVariant.useFrameStep sinQ expQ delta sp with
          leftArm := none, leftWrist := none } ∧
    AppV2.useFrameStep sinQ delta { sb2 with leftArm := none, leftWrist := none } =
      { AppV2.useFrameStep sinQ delta sb2 with leftArm := none, leftWrist := none } ∧
    AppV1.useFrameStep { sb1 with leftArm := none, leftWrist := none } =
      { AppV1.useFrameStep sb1 with leftArm := none, leftWrist := none } ∧
    RefinedVariant.useFrameStep sinQ expQ delta { sp with balls := [] } =
      { RefinedVariant.useFrameStep sinQ expQ delta sp with balls := [] } ∧
    AppV2.useFrameStep sinQ delta { sb2 with balls := [] } =
      { AppV2.useFrameStep sinQ delta sb2 with balls := [] } ∧
    AppV1.useFrameStep { sb1 with balls := [] } =
      { AppV1.useFrameStep sb1 with balls := [] } ∧
    WheelVariant.useFrameStep { sw with balls := [] } =
      { WheelVariant.useFrameStep sw with balls := [] } := by
  refine ⟨?_, ?_, rfl, rfl, ?_, ?_, ?_, ?_, ?_, ?_, ?_⟩
  · simp [RefinedVariant.useFrameMixerWrite, h0]
  · simp [AppV2.useFrameMixerWrite, h2]
  all_goals rfl

/-- Witness for the amended C4 at the all-zero states of all four frame
variants (`maxTime = 0`, oracles instantiated by the zero function). -/
theorem C4_amended_skip_policy_witness :
    (RefinedVariant.mkState.maxTime = 0 ∧ AppV2.mkState.maxTime = 0) ∧
    (RefinedVariant.useFrameMixerWrite true (fun _ => 0) (fun _ => 0) 0
        RefinedVariant.mkState = none ∧
      AppV2.useFrameMixerWrite true (fun _ => 0) 0 AppV2.mkState = none ∧
      AppV1.useFrameMixerWrite true AppV1.mkState =
        some ((AppV1.useFrameStep AppV1.mkState).scrollPos) ∧
      WheelVariant.useFrameMixerWrite true WheelVariant.mkState =
        some ((WheelVariant.useFrameStep WheelVariant.mkState).scrollPos) ∧
      RefinedVariant.useFrameStep (fun _ => 0) (fun _ => 0) 0
          { RefinedVariant.mkState with leftArm := none, leftWrist := none } =
        { RefinedVariant.useFrameStep (fun _ => 0) (fun _ => 0) 0
            RefinedVariant.mkState with leftArm := none, leftWrist := none } ∧
      AppV2.useFrameStep (fun _ => 0) 0
          { AppV2.mkState with leftArm := none, leftWrist := none } =
        { AppV2.useFrameStep (fun _ => 0) 0 AppV2.mkState with
            leftArm := none, leftWrist := none } ∧
      AppV1.useFrameStep { AppV1.mkState with leftArm := none, leftWrist := none } =
        { AppV1.useFrameStep AppV1.mkState with leftArm := none, leftWrist := none } ∧
      RefinedVariant.useFrameStep (fun _ => 0) (fun _ => 0) 0
          { RefinedVariant.mkState with balls := [] } =
        { RefinedVariant.useFrameStep (fun _ => 0) (fun _ => 0) 0
            RefinedVariant.mkState with balls := [] } ∧
      AppV2.useFrameStep (fun _ => 0) 0 { AppV2.mkState with balls := [] } =
        { AppV2.useFrameStep (fun _ => 0) 0 AppV2.mkState with balls := [] } ∧
      AppV1.useFrameStep { AppV1.mkState with balls := [] } =
        { AppV1.useFrameStep AppV1.mkState with balls := [] } ∧
      WheelVariant.useFrameStep { WheelVariant.mkState with balls := [] } =
        { WheelVariant.useFrameStep WheelVariant.mkState with balls := [] }) :=
  ⟨⟨rfl, rfl⟩,
   C4_amended_skip_policy (fun _ => 0) (fun _ => 0) 0 RefinedVariant.mkState
     RefinedVariant.mkState AppV2.mkState AppV2.mkState AppV1.mkState AppV1.mkState
     WheelVariant.mkState true rfl rfl⟩

theorem AppV2.handleMove_triggered_preserved (y t : ℚ) (s : AppV2.State)
    (h : s.handInteractionTriggered = true) :
    (AppV2.handleMove y t s).handInteractionTriggered = true ∧
    (AppV2.handleMove y t s).handInteractionDirection = s.handInteractionDirection ∧
    (AppV2.handleMove y t s).handInteractionProgress = s.handInteractionProgress := by
  simp only [AppV2.handleMove]
  split_ifs <;> simp_all

theorem AppV2.handleMove_untriggered_no_write (y t : ℚ) (s : AppV2.State)
    (h : s.handInteractionTriggered = false)
    (h2 : (AppV2.handleMove y t s).handInteractionTriggered = false) :
    (AppV2.handleMove y t s).handInteractionDirection = s.handInteractionDirection ∧
    (AppV2.handleMove y t s).handInteractionProgress = s.handInteractionProgress := by
  simp only [AppV2.handleMove] at h2 ⊢
  split_ifs at h2 ⊢ <;> simp_all

theorem AppV2.useFrameStep_triggered_preserved (sinQ : ℚ → ℚ) (delta : ℚ)
    (s : AppV2.State) :
    (AppV2.useFrameStep sinQ delta s).handInteractionTriggered =
      s.handInteractionTriggered := rfl

theorem AppV2.dragStep_triggered_mono (sinQ : ℚ → ℚ) (e : AppV2.DragEvent)
    (s : AppV2.State) (h : s.handInteractionTriggered = true) :
    (AppV2.dragStep sinQ e s).handInteractionTriggered = true := by
  cases e with
  | move y t => exact (AppV2.handleMove_triggered_preserved y t s h).1
  | frame delta => exact (AppV2.useFrameStep_triggered_preserved sinQ delta s).trans h

theorem AppV2.trigFlips_eq_zero (sinQ : ℚ → ℚ) (es : List AppV2.DragEvent)
    (s : AppV2.State) (h : s.handInteractionTriggered = true) :
    AppV2.trigFlips sinQ s es = 0 := by
  induction es generalizing s with
  | nil => rfl
  | cons e es ih =>
    have hs' := AppV2.dragStep_triggered_mono sinQ e s h
    simp only [AppV2.trigFlips]
    simp [h, ih _ hs']

theorem AppV2.trigFlips_le_one (sinQ : ℚ → ℚ) (es : List AppV2.DragEvent)
    (s : AppV2.State) : AppV2.trigFlips sinQ s es ≤ 1 := by
  induction es generalizing s with
  | nil => simp [AppV2.trigFlips]
  | cons e es ih =>
    simp only [AppV2.trigFlips]
    by_cases hc : s.handInteractionTriggered = false ∧
        (AppV2.dragStep sinQ e s).handInteractionTriggered = true
    · rw [if_pos hc, AppV2.trigFlips_eq_zero sinQ es _ hc.2]
    · rw [if_neg hc]
      simpa using ih (AppV2.dragStep sinQ e s)

theorem RefinedVariant.refMove_triggered_preserved (y : ℚ) (s : RefinedVariant.State)
    (h : s.handInteractionTriggered = true) :
    (RefinedVariant.handleMove y s).handInteractionTriggered = true ∧
    (RefinedVariant.handleMove y s).handInteractionDirection =
      s.handInteractionDirection ∧
    (RefinedVariant.handleMove y s).handInteractionProgress =
      s.handInteractionProgress := by
  simp only [RefinedVariant.handleMove]
  split_ifs <;> simp_all

theorem RefinedVariant.refMove_untriggered_no_write (y : ℚ) (s : RefinedVariant.State)
    (h : s.handInteractionTriggered = false)
    (h2 : (RefinedVariant.handleMove y s).handInteractionTriggered = false) :
    (RefinedVariant.handleMove y s).handInteractionDirection =
      s.handInteractionDirection ∧
    (RefinedVariant.handleMove y s).handInteractionProgress =
      s.handInteractionProgress := by
  simp only [RefinedVariant.handleMove] at h2 ⊢
  split_ifs at h2 ⊢ <;> simp_all

theorem RefinedVariant.refFrame_triggered_preserved (sinQ expQ : ℚ → ℚ) (delta : ℚ)
    (s : RefinedVariant.State) :
    (RefinedVariant.useFrameStep sinQ expQ delta s).handInteractionTriggered =
      s.handInteractionTriggered := rfl

theorem RefinedVariant.refDragStep_triggered_mono (sinQ expQ : ℚ → ℚ)
    (e : RefinedVariant.DragEvent) (s : RefinedVariant.State)
    (h : s.handInteractionTriggered = true) :
    (RefinedVariant.dragStep sinQ expQ e s).handInteractionTriggered = true := by
  cases e with
  | move y => exact (RefinedVariant.refMove_triggered_preserved y s h).1
  | frame delta =>
    exact (RefinedVariant.refFrame_triggered_preserved sinQ expQ delta s).trans h

theorem RefinedVariant.refTrigFlips_eq_zero (sinQ expQ : ℚ → ℚ)
    (es : List RefinedVariant.DragEvent) (s : RefinedVariant.State)
    (h : s.handInteractionTriggered = true) :
    RefinedVariant.trigFlips sinQ expQ s es = 0 := by
  induction es generalizing s with
  | nil => rfl
  | cons e es ih =>
    have hs' := RefinedVariant.refDragStep_triggered_mono sinQ expQ e s h
    simp only [RefinedVariant.trigFlips]
    simp [h, ih _ hs']

theorem RefinedVariant.refTrigFlips_le_one (sinQ expQ : ℚ → ℚ)
    (es : List RefinedVariant.DragEvent) (s : RefinedVariant.State) :
    RefinedVariant.trigFlips sinQ expQ s es ≤ 1 := by
  induction es generalizing s with
  | nil => simp [RefinedVariant.trigFlips]
  | cons e es ih =>
    simp only [RefinedVariant.trigFlips]
    by_cases hc : s.handInteractionTriggered = false ∧
        (RefinedVariant.dragStep sinQ expQ e s).handInteractionTriggered = true
    · rw [if_pos hc, RefinedVariant.refTrigFlips_eq_zero sinQ expQ es _ hc.2]
    · rw [if_neg hc]
      simpa using ih (RefinedVariant.dragStep sinQ expQ e s)

/-- Claim C3: within a single drag session (from pointer/touch-down, which
resets `handInteractionTriggered` to false, until pointer/touch-up) the
one-shot hand gesture is triggered at most once — along any interleaving of
move events and frame ticks the flag makes at most one false-to-true
transition, and the move handler re-initializes `handInteractionDirection`
and `handInteractionProgress` only at that single transition (once the flag
is true, and on below-threshold moves, both fields are left untouched) — in
both variants with the one-shot logic: the second `App.jsx` variant and the
refined `part_001` variant. -/
theorem C3_one_shot_trigger_once (sinQ expQ : ℚ → ℚ) (y t yr : ℚ)
    (s0 : AppV2.State) (s0r : RefinedVariant.State)
    (es : List AppV2.DragEvent) (esr : List RefinedVariant.DragEvent) :
    (AppV2.handleStart y t s0).handInteractionTriggered = false ∧
    AppV2.trigFlips sinQ (AppV2.handleStart y t s0) es ≤ 1 ∧
    (∀ (s : AppV2.State) (y2 t2 : ℚ), s.handInteractionTriggered = true →
      ((AppV2.handleMove y2 t2 s).handInteractionTriggered = true ∧
        (AppV2.handleMove y2 t2 s).handInteractionDirection = s.handInteractionDirection ∧
        (AppV2.handleMove y2 t2 s).handInteractionProgress = s.handInteractionProgress)) ∧
    (∀ (s : AppV2.State) (y2 t2 : ℚ), s.handInteractionTriggered = false →
      (AppV2.handleMove y2 t2 s).handInteractionTriggered = false →
      ((AppV2.handleMove y2 t2 s).handInteractionDirection = s.handInteractionDirection ∧
        (AppV2.handleMove y2 t2 s).handInteractionProgress = s.handInteractionProgress)) ∧
    (RefinedVariant.handleStart yr s0r).handInteractionTriggered = false ∧
    RefinedVariant.trigFlips sinQ expQ (RefinedVariant.handleStart yr s0r) esr ≤ 1 ∧
    (∀ (s : RefinedVariant.State) (y2 : ℚ), s.handInteractionTriggered = true →
      ((RefinedVariant.handleMove y2 s).handInteractionTriggered = true ∧
        (RefinedVariant.handleMove y2 s).handInteractionDirection =
          s.handInteractionDirection ∧
        (RefinedVariant.handleMove y2 s).handInteractionProgress =
          s.handInteractionProgress)) ∧
    (∀ (s : RefinedVariant.State) (y2 : ℚ), s.handInteractionTriggered = false →
      (RefinedVariant.handleMove y2 s).handInteractionTriggered = false →
      ((RefinedVariant.handleMove y2 s).handInteractionDirection =
          s.handInteractionDirection ∧
        (RefinedVariant.handleMove y2 s).handInteractionProgress =
          s.handInteractionProgress)) := by
  refine ⟨rfl, AppV2.trigFlips_le_one sinQ es _, ?_, ?_, rfl,
          RefinedVariant.refTrigFlips_le_one sinQ expQ esr _, ?_, ?_⟩
  · intro s y2 t2 h
    exact AppV2.handleMove_triggered_preserved y2 t2 s h
  · intro s y2 t2 h h2
    exact AppV2.handleMove_untriggered_no_write y2 t2 s h h2
  · intro s y2 h
    exact RefinedVariant.refMove_triggered_preserved y2 s h
  · intro s y2 h h2
    exact RefinedVariant.refMove_untriggered_no_write y2 s h h2

/-- Witness for C3: in both one-shot variants a concrete already-triggered
state is left untouched by a further over-threshold move, and concrete
sessions have at most one flip. -/
theorem C3_one_shot_trigger_once_witness :
    (c3State.handInteractionTriggered = true ∧
      c3RefState.handInteractionTriggered = true) ∧
    (((AppV2.handleMove 130 1 c3State).handInteractionTriggered = true ∧
        (AppV2.handleMove 130 1 c3State).handInteractionDirection =
          c3State.handInteractionDirection ∧
        (AppV2.handleMove 130 1 c3State).handInteractionProgress =
          c3State.handInteractionProgress) ∧
      ((RefinedVariant.handleMove 130 c3RefState).handInteractionTriggered = true ∧
        (RefinedVariant.handleMove 130 c3RefState).handInteractionDirection =
          c3RefState.handInteractionDirection ∧
        (RefinedVariant.handleMove 130 c3RefState).handInteractionProgress =
          c3RefState.handInteractionProgress) ∧
      AppV2.trigFlips (fun _ => 0) (AppV2.handleStart 100 0 AppV2.mkState)
        [AppV2.DragEvent.move 130 1, AppV2.DragEvent.move 180 2] ≤ 1 ∧
      RefinedVariant.trigFlips (fun _ => 0) (fun _ => 0)
        (RefinedVariant.handleStart 100 RefinedVariant.mkState)
        [RefinedVariant.DragEvent.move 130, RefinedVariant.DragEvent.move 180] ≤ 1) :=
  ⟨⟨rfl, rfl⟩,
   (C3_one_shot_trigger_once (fun _ => 0) (fun _ => 0) 100 0 100 AppV2.mkState
       RefinedVariant.mkState [AppV2.DragEvent.move 130 1, AppV2.DragEvent.move 180 2]
       [RefinedVariant.DragEvent.move 130,
        RefinedVariant.DragEvent.move 180]).2.2.1 c3State 130 1 rfl,
   (C3_one_shot_trigger_once (fun _ => 0) (fun _ => 0) 100 0 100 AppV2.mkState
       RefinedVariant.mkState [AppV2.DragEvent.move 130 1, AppV2.DragEvent.move 180 2]
       [RefinedVariant.DragEvent.move 130,
        RefinedVariant.DragEvent.move 180]).2.2.2.2.2.2.1 c3RefState 130 rfl,
   (C3_one_shot_trigger_once (fun _ => 0) (fun _ => 0) 100 0 100 AppV2.mkState
       RefinedVariant.mkState [AppV2.DragEvent.move 130 1, AppV2.DragEvent.move 180 2]
       [RefinedVariant.DragEvent.move 130,
        RefinedVariant.DragEvent.move 180]).2.1,
   (C3_one_shot_trigger_once (fun _ => 0) (fun _ => 0) 100 0 100 AppV2.mkState
       RefinedVariant.mkState [AppV2.DragEvent.move 130 1, AppV2.DragEvent.move 180 2]
       [RefinedVariant.DragEvent.move 130,
        RefinedVariant.DragEvent.move 180]).2.2.2.2.2.1⟩

theorem qtrunc_sub_bounds (q : ℚ) :
    -1 < q - (qtrunc q : ℚ) ∧ q - (qtrunc q : ℚ) < 1 ∧
      (0 ≤ q → 0 ≤ q - (qtrunc q : ℚ)) := by
  unfold qtrunc
  split_ifs with h
  · have h1 := Int.floor_le q
    have h2 := Int.lt_floor_add_one q
    refine ⟨by linarith, by linarith, fun _ => by linarith⟩
  · have h1 := Int.le_ceil q
    have h2 := Int.ceil_lt_add_one q
    refine ⟨by linarith, by linarith, fun hq => absurd hq h⟩

theorem jsMod_eq_mul (a m : ℚ) (hm : m ≠ 0) :
    jsMod a m = m * (a / m - (qtrunc (a / m) : ℚ)) := by
  unfold jsMod
  field_simp

theorem jsMod_bounds (a m : ℚ) (hm : 0 < m) : -m < jsMod a m ∧ jsMod a m < m := by
  obtain ⟨h1, h2, -⟩ := qtrunc_sub_bounds (a / m)
  rw [jsMod_eq_mul a m hm.ne']
  constructor <;> nlinarith

theorem jsMod_nonneg_of_nonneg (a m : ℚ) (hm : 0 < m) (ha : 0 ≤ a) :
    0 ≤ jsMod a m := by
  obtain ⟨-, -, h3⟩ := qtrunc_sub_bounds (a / m)
  have hq : 0 ≤ a / m := div_nonneg ha hm.le
  rw [jsMod_eq_mul a m hm.ne']
  nlinarith [h3 hq]

theorem loopedTime_bounds (x m : ℚ) (hm : 0 < m) :
    0 ≤ loopedTime x m ∧ loopedTime x m < m := by
  obtain ⟨hlo, hhi⟩ := jsMod_bounds x m hm
  have hx' : 0 ≤ jsMod x m + m := by linarith
  unfold loopedTime
  exact ⟨jsMod_nonneg_of_nonneg _ m hm hx', (jsMod_bounds _ m hm).2⟩

/-- Claim C6: in the looping-mode variants (second `App.jsx` variant and the
refined variant) with `clipDuration > 0`, the time written to the mixer each
frame equals `((scrollPos % clipDuration) + clipDuration) % clipDuration`
computed on the updated scroll position, and for every rational scroll
position (negative values included) that value lies in `[0, clipDuration)`,
so the negative-modulo case is guarded. -/
theorem C6_looping_mixer_time (x m : ℚ) (hm : 0 < m) (sinQ expQ : ℚ → ℚ) (delta : ℚ)
    (s2 : AppV2.State) (sp : RefinedVariant.State)
    (h2 : 0 < s2.maxTime) (hp : 0 < sp.maxTime) :
    (0 ≤ loopedTime x m ∧ loopedTime x m < m) ∧
    AppV2.useFrameMixerWrite true sinQ delta s2 =
      some (loopedTime (AppV2.useFrameStep sinQ delta s2).scrollPos s2.maxTime) ∧
    RefinedVariant.useFrameMixerWrite true sinQ expQ delta sp =
      some (loopedTime (RefinedVariant.useFrameStep sinQ expQ delta sp).scrollPos
              sp.maxTime) := by
  refine ⟨loopedTime_bounds x m hm, ?_, ?_⟩
  · simp [AppV2.useFrameMixerWrite, h2]
  · simp [RefinedVariant.useFrameMixerWrite, hp]

/-- Witness for C6 at a negative scroll position `x = -7` with duration
`m = 3`, and concrete looping states with `maxTime = 2`. -/
theorem C6_looping_mixer_time_witness :
    ((0 : ℚ) < 3 ∧ (0 : ℚ) < ({ AppV2.mkState with maxTime := 2 } : AppV2.State).maxTime ∧
      (0 : ℚ) < ({ RefinedVariant.mkState with maxTime := 2 } : RefinedVariant.State).maxTime) ∧
    ((0 ≤ loopedTime (-7) 3 ∧ loopedTime (-7) 3 < 3) ∧
      AppV2.useFrameMixerWrite true (fun _ => 0) 0 { AppV2.mkState with maxTime := 2 } =
        some (loopedTime
          (AppV2.useFrameStep (fun _ => 0) 0 { AppV2.mkState with maxTime := 2 }).scrollPos
          ({ AppV2.mkState with maxTime := 2 } : AppV2.State).maxTime) ∧
      RefinedVariant.useFrameMixerWrite true (fun _ => 0) (fun _ => 0) 0
          { RefinedVariant.mkState with maxTime := 2 } =
        some (loopedTime
          (RefinedVariant.useFrameStep (fun _ => 0) (fun _ => 0) 0
            { RefinedVariant.mkState with maxTime := 2 }).scrollPos
          ({ RefinedVariant.mkState with maxTime := 2 } : RefinedVariant.State).maxTime)) :=
  ⟨⟨by norm_num, by norm_num [AppV2.mkState], by norm_num [RefinedVariant.mkState]⟩,
   C6_looping_mixer_time (-7) 3 (by norm_num) (fun _ => 0) (fun _ => 0) 0
     { AppV2.mkState with maxTime := 2 } { RefinedVariant.mkState with maxTime := 2 }
     (by norm_num [AppV2.mkState]) (by norm_num [RefinedVariant.mkState])⟩

theorem AppV1.useFrameStep_spin (s : AppV1.State) :
    (AppV1.useFrameStep s).spinVelocity =
      s.spinVelocity + (s.targetSpinVelocity - s.spinVelocity) * 0.05 ∧
    (AppV1.useFrameStep s).targetSpinVelocity = s.targetSpinVelocity * 0.95 :=
  ⟨rfl, rfl⟩

theorem AppV1.spinEnergy_contract (s : AppV1.State) :
    AppV1.spinEnergy (AppV1.useFrameStep s) ≤ 39/40 * AppV1.spinEnergy s := by
  obtain ⟨hs, ht⟩ := AppV1.useFrameStep_spin s
  unfold AppV1.spinEnergy
  rw [hs, ht]
  have hsum : s.spinVelocity + (s.targetSpinVelocity - s.spinVelocity) * 0.05 =
      0.95 * s.spinVelocity + 0.05 * s.targetSpinVelocity := by ring
  have h1 : |s.spinVelocity + (s.targetSpinVelocity - s.spinVelocity) * 0.05| ≤
      0.95 * |s.spinVelocity| + 0.05 * |s.targetSpinVelocity| := by
    rw [hsum]
    calc |0.95 * s.spinVelocity + 0.05 * s.targetSpinVelocity|
        ≤ |0.95 * s.spinVelocity| + |0.05 * s.targetSpinVelocity| := abs_add _ _
      _ = 0.95 * |s.spinVelocity| + 0.05 * |s.targetSpinVelocity| := by
          rw [abs_mul, abs_mul]
          norm_num [abs_of_nonneg]
  have h2 : |s.targetSpinVelocity * 0.95| = |s.targetSpinVelocity| * 0.95 := by
    rw [abs_mul, abs_of_pos (show (0:ℚ) < 0.95 by norm_num)]
  have h3 := abs_nonneg s.spinVelocity
  rw [h2]
  linarith

theorem AppV1.spinEnergy_iterate (s : AppV1.State) (n : ℕ) :
    AppV1.spinEnergy (AppV1.useFrameStep^[n] s) ≤ (39/40)^n * AppV1.spinEnergy s := by
  induction n with
  | zero => simp
  | succ n ih =>
    rw [Function.iterate_succ_apply']
    calc AppV1.spinEnergy (AppV1.useFrameStep (AppV1.useFrameStep^[n] s))
        ≤ 39/40 * AppV1.spinEnergy (AppV1.useFrameStep^[n] s) :=
          AppV1.spinEnergy_contract _
      _ ≤ 39/40 * ((39/40)^n * AppV1.spinEnergy s) :=
          mul_le_mul_of_nonneg_left ih (by norm_num)
      _ = (39/40)^(n+1) * AppV1.spinEnergy s := by ring

theorem AppV1.abs_spin_le_energy (s : AppV1.State) :
    |s.spinVelocity| ≤ AppV1.spinEnergy s := by
  unfold AppV1.spinEnergy
  have := abs_nonneg s.targetSpinVelocity
  linarith

theorem geom_decay_lt (r T eps : ℚ) (hr0 : 0 ≤ r) (hr1 : r < 1) (he : 0 < eps) :
    ∃ N : ℕ, ∀ n : ℕ, N ≤ n → |r ^ n * T| < eps := by
  have hT0 : 0 ≤ |T| := abs_nonneg T
  have hpos : 0 < eps / (|T| + 1) := div_pos he (by linarith)
  obtain ⟨N, hN⟩ := exists_pow_lt_of_lt_one hpos hr1
  refine ⟨N, fun n hn => ?_⟩
  have h1 : |r ^ n * T| = r ^ n * |T| := by
    rw [abs_mul, abs_pow, abs_of_nonneg hr0]
  have h2 : r ^ n ≤ r ^ N := pow_le_pow_of_le_one hr0 hr1.le hn
  have h3 : r ^ n * |T| ≤ r ^ N * |T| := mul_le_mul_of_nonneg_right h2 hT0
  have hNp : (0:ℚ) ≤ r ^ N := pow_nonneg hr0 N
  have h4 : r ^ N * |T| ≤ r ^ N * (|T| + 1) := by nlinarith
  have h5 : r ^ N * (|T| + 1) < (eps / (|T| + 1)) * (|T| + 1) :=
    mul_lt_mul_of_pos_right hN (by linarith)
  have h6 : (eps / (|T| + 1)) * (|T| + 1) = eps := by field_simp
  rw [h1]
  linarith

theorem RefinedVariant.refFrame_spin (sinQ expQ : ℚ → ℚ) (d : ℚ)
    (s : RefinedVariant.State) :
    (RefinedVariant.useFrameStep sinQ expQ d s).spinVelocity =
      lerp s.spinVelocity s.targetSpinVelocity (d * 10) ∧
    (RefinedVariant.useFrameStep sinQ expQ d s).targetSpinVelocity =
      lerp s.targetSpinVelocity 0 (d * 2) :=
  ⟨rfl, rfl⟩

theorem RefinedVariant.refSpinEnergy_contract (sinQ expQ : ℚ → ℚ) (d : ℚ)
    (hd1 : 0 < d) (hd2 : d ≤ 1/10) (s : RefinedVariant.State) :
    RefinedVariant.spinEnergy (RefinedVariant.useFrameStep sinQ expQ d s) ≤
      (1 - d) * RefinedVariant.spinEnergy s := by
  obtain ⟨hs, ht⟩ := RefinedVariant.refFrame_spin sinQ expQ d s
  unfold RefinedVariant.spinEnergy
  rw [hs, ht]
  have e1 : lerp s.spinVelocity s.targetSpinVelocity (d * 10) =
      (1 - d * 10) * s.spinVelocity + (d * 10) * s.targetSpinVelocity := rfl
  have e2 : lerp s.targetSpinVelocity 0 (d * 2) =
      (1 - d * 2) * s.targetSpinVelocity := by
    unfold lerp
    ring
  rw [e1, e2]
  have h1 : |(1 - d * 10) * s.spinVelocity + (d * 10) * s.targetSpinVelocity| ≤
      (1 - d * 10) * |s.spinVelocity| + (d * 10) * |s.targetSpinVelocity| := by
    calc |(1 - d * 10) * s.spinVelocity + (d * 10) * s.targetSpinVelocity|
        ≤ |(1 - d * 10) * s.spinVelocity| + |(d * 10) * s.targetSpinVelocity| :=
          abs_add _ _
      _ = (1 - d * 10) * |s.spinVelocity| + (d * 10) * |s.targetSpinVelocity| := by
          rw [abs_mul, abs_mul, abs_of_nonneg (by linarith : (0:ℚ) ≤ 1 - d * 10),
              abs_of_nonneg (by linarith : (0:ℚ) ≤ d * 10)]
  have h2 : |(1 - d * 2) * s.targetSpinVelocity| =
      (1 - d * 2) * |s.targetSpinVelocity| := by
    rw [abs_mul, abs_of_nonneg (by linarith : (0:ℚ) ≤ 1 - d * 2)]
  have h3 := abs_nonneg s.spinVelocity
  have h4 := abs_nonneg s.targetSpinVelocity
  rw [h2]
  nlinarith

theorem RefinedVariant.refSpinEnergy_iterate (sinQ expQ : ℚ → ℚ) (d : ℚ)
    (hd1 : 0 < d) (hd2 : d ≤ 1/10) (s : RefinedVariant.State) (n : ℕ) :
    RefinedVariant.spinEnergy ((RefinedVariant.useFrameStep sinQ expQ d)^[n] s) ≤
      (1 - d)^n * RefinedVariant.spinEnergy s := by
  induction n with
  | zero => simp
  | succ n ih =>
    rw [Function.iterate_succ_apply']
    calc RefinedVariant.spinEnergy
          (RefinedVariant.useFrameStep sinQ expQ d
            ((RefinedVariant.useFrameStep sinQ expQ d)^[n] s))
        ≤ (1 - d) * RefinedVariant.spinEnergy
            ((RefinedVariant.useFrameStep sinQ expQ d)^[n] s) :=
          RefinedVariant.refSpinEnergy_contract sinQ expQ d hd1 hd2 _
      _ ≤ (1 - d) * ((1 - d)^n * RefinedVariant.spinEnergy s) :=
          mul_le_mul_of_nonneg_left ih (by linarith)
      _ = (1 - d)^(n+1) * RefinedVariant.spinEnergy s := by ring

theorem RefinedVariant.refAbs_spin_le_energy (s : RefinedVariant.State) :
    |s.spinVelocity| ≤ RefinedVariant.spinEnergy s := by
  unfold RefinedVariant.spinEnergy
  have := abs_nonneg s.targetSpinVelocity
  linarith

/-- Claim C7: spin velocity asymptotically decays to zero absent further
input, in both cited spin updates — the `App.jsx` form
(`spinVelocity += (targetSpinVelocity - spinVelocity) * 0.05` then
`targetSpinVelocity *= 0.95`, unconditionally), and the refined `part_001`
form (`spinVelocity = lerp(spinVelocity, targetSpinVelocity, delta*10)` then
`targetSpinVelocity = lerp(targetSpinVelocity, 0, delta*2)`) for frames at
any fixed delta with `0 < delta ≤ 1/10`, i.e. whenever the update moves a
fraction of the way toward the target and applies a friction factor below
one, as the claim describes.  In both cases, for every `ε > 0` there is an
`N` with `|spinVelocity| < ε` after every `n ≥ N` frames, from any state. -/
theorem C7_spin_decay (s : AppV1.State) (eps : ℚ) (he : 0 < eps)
    (sinQ expQ : ℚ → ℚ) (d : ℚ) (hd1 : 0 < d) (hd2 : d ≤ 1/10)
    (sp : RefinedVariant.State) (eps2 : ℚ) (he2 : 0 < eps2) :
    (∃ N : ℕ, ∀ n : ℕ, N ≤ n → |(AppV1.useFrameStep^[n] s).spinVelocity| < eps) ∧
    (∃ N : ℕ, ∀ n : ℕ, N ≤ n →
      |((RefinedVariant.useFrameStep sinQ expQ d)^[n] sp).spinVelocity| < eps2) := by
  constructor
  · obtain ⟨N, hN⟩ :=
      geom_decay_lt (39/40) (AppV1.spinEnergy s) eps (by norm_num) (by norm_num) he
    refine ⟨N, fun n hn => ?_⟩
    have h1 : |(AppV1.useFrameStep^[n] s).spinVelocity| ≤
        (39/40)^n * AppV1.spinEnergy s :=
      (AppV1.abs_spin_le_energy _).trans (AppV1.spinEnergy_iterate s n)
    have h2 := hN n hn
    have h3 := le_abs_self (((39:ℚ)/40)^n * AppV1.spinEnergy s)
    linarith
  · obtain ⟨N, hN⟩ := geom_decay_lt (1 - d) (RefinedVariant.spinEnergy sp) eps2
      (by linarith) (by linarith) he2
    refine ⟨N, fun n hn => ?_⟩
    have h1 : |((RefinedVariant.useFrameStep sinQ expQ d)^[n] sp).spinVelocity| ≤
        (1 - d)^n * RefinedVariant.spinEnergy sp :=
      (RefinedVariant.refAbs_spin_le_energy _).trans
        (RefinedVariant.refSpinEnergy_iterate sinQ expQ d hd1 hd2 sp n)
    have h2 := hN n hn
    have h3 := le_abs_self (((1:ℚ) - d)^n * RefinedVariant.spinEnergy sp)
    linarith

/-- Witness for C7 at concrete spinning states of both variants, with frame
delta `1/60` and tolerances `1/100` and `1/50`. -/
theorem C7_spin_decay_witness :
    ((0 : ℚ) < 1/100 ∧ (0 : ℚ) < 1/60 ∧ (1/60 : ℚ) ≤ 1/10 ∧ (0 : ℚ) < 1/50) ∧
    ((∃ N : ℕ, ∀ n : ℕ, N ≤ n →
        |(AppV1.useFrameStep^[n]
            { AppV1.mkState with
                spinVelocity := 5, targetSpinVelocity := -3 }).spinVelocity| <
          1/100) ∧
      (∃ N : ℕ, ∀ n : ℕ, N ≤ n →
        |((RefinedVariant.useFrameStep (fun _ => 0) (fun _ => 0) (1/60))^[n]
            { RefinedVariant.mkState with
                spinVelocity := 4, targetSpinVelocity := 2 }).spinVelocity| <
          1/50)) :=
  ⟨⟨by norm_num, by norm_num, by norm_num, by norm_num⟩,
   C7_spin_decay { AppV1.mkState with spinVelocity := 5, targetSpinVelocity := -3 }
     (1/100) (by norm_num) (fun _ => 0) (fun _ => 0) (1/60) (by norm_num) (by norm_num)
     { RefinedVariant.mkState with spinVelocity := 4, targetSpinVelocity := 2 }
     (1/50) (by norm_num)⟩

theorem AppV1.useFrameStep_isDragging (s : AppV1.State) :
    (AppV1.useFrameStep s).isDragging = s.isDragging := rfl

theorem AppV1.useFrameStep_targetScroll_idle (s : AppV1.State)
    (h : s.isDragging = false) :
    (AppV1.useFrameStep s).targetScroll = 23/25 * s.targetScroll := by
  have hfield : (AppV1.useFrameStep s).targetScroll =
      if s.isDragging then s.targetScroll else lerp s.targetScroll 0 0.08 := rfl
  rw [hfield, h, if_neg (by simp : ¬(false = true))]
  unfold lerp
  ring

theorem AppV1.iterate_idle_targetScroll (s : AppV1.State) (h : s.isDragging = false)
    (n : ℕ) :
    (AppV1.useFrameStep^[n] s).targetScroll = (23/25)^n * s.targetScroll ∧
    (AppV1.useFrameStep^[n] s).isDragging = false := by
  induction n with
  | zero => exact ⟨by simp, h⟩
  | succ n ih =>
    rw [Function.iterate_succ_apply']
    refine ⟨?_, ?_⟩
    · rw [AppV1.useFrameStep_targetScroll_idle _ ih.2, ih.1]
      ring
    · rw [AppV1.useFrameStep_isDragging]
      exact ih.2

/-- Counterexample to claim C5: a net-zero drag (down 250px, back up 250px,
ending at the starting height) from a pre-drag state with `targetScroll = 5`
and a 10-second clip leaves `targetScroll = 10` after the drag (the first
delta saturates the lower clamp), and the idle frames then decay it to `0`,
not back to `5` — with tolerance `ε = 5/2` no tail of the idle-frame sequence
stays within `ε` of the pre-drag value. -/
theorem C5_counterexample :
    c5Start.targetScroll = 5 ∧
    ¬ (∀ eps : ℚ, 0 < eps → ∃ N : ℕ, ∀ n : ℕ, N ≤ n →
        |(AppV1.useFrameStep^[n] c5Post).targetScroll - c5Start.targetScroll| < eps) := by
  constructor
  · rfl
  · intro hcl
    obtain ⟨N, hN⟩ := hcl (5/2) (by norm_num)
    have hpost10 : c5Post.targetScroll = 10 := by
      norm_num [c5Post, c5Moves, c5Start, AppV1.mkState, AppV1.handleEnd,
                AppV1.runMoves, AppV1.handleMove, AppV1.handleStart, clamp, lerp]
    have hdrag : c5Post.isDragging = false := rfl
    have hn := hN (max N 17) (le_max_left _ _)
    have hit := (AppV1.iterate_idle_targetScroll c5Post hdrag (max N 17)).1
    rw [hit, hpost10, show c5Start.targetScroll = 5 from rfl] at hn
    have hpowmono : ((23:ℚ)/25) ^ (max N 17) ≤ (23/25) ^ 17 :=
      pow_le_pow_of_le_one (by norm_num) (by norm_num) (le_max_right _ _)
    have hpow17 : ((23:ℚ)/25) ^ 17 ≤ 1/4 := by norm_num
    rw [abs_lt] at hn
    nlinarith [hn.1]

/-- Claim C5 as amended: the idle decay drives `targetScroll` to `0`, not to
an arbitrary pre-drag value; hence when the pre-drag `targetScroll` is `0`
(in particular from the initial state), after any drag session — net-zero or
not — and for every `ε > 0` there is an `N` such that after every `n ≥ N`
idle frames `|targetScroll - preDragTargetScroll| < ε`. -/
theorem C5_amended_idle_decay_to_zero (s0 : AppV1.State) (y0 t0 : ℚ)
    (moves : List (ℚ × ℚ)) (eps : ℚ) (hpre : s0.targetScroll = 0) (he : 0 < eps) :
    ∃ N : ℕ, ∀ n : ℕ, N ≤ n →
      |(AppV1.useFrameStep^[n]
          (AppV1.handleEnd
            (AppV1.runMoves (AppV1.handleStart y0 t0 s0) moves))).targetScroll -
        s0.targetScroll| < eps := by
  have hdrag : (AppV1.handleEnd
      (AppV1.runMoves (AppV1.handleStart y0 t0 s0) moves)).isDragging = false := rfl
  obtain ⟨N, hN⟩ := geom_decay_lt (23/25)
    (AppV1.handleEnd (AppV1.runMoves (AppV1.handleStart y0 t0 s0) moves)).targetScroll
    eps (by norm_num) (by norm_num) he
  refine ⟨N, fun n hn => ?_⟩
  have hit := (AppV1.iterate_idle_targetScroll _ hdrag n).1
  rw [hit, hpre, sub_zero]
  exact hN n hn

/-- Witness for the amended C5: starting from the all-zero state, the same
net-zero drag as in the counterexample decays back to the pre-drag value `0`
within `ε = 1/10`. -/
theorem C5_amended_idle_decay_to_zero_witness :
    (AppV1.mkState.targetScroll = 0 ∧ (0:ℚ) < 1/10) ∧
    ∃ N : ℕ, ∀ n : ℕ, N ≤ n →
      |(AppV1.useFrameStep^[n]
          (AppV1.handleEnd
            (AppV1.runMoves (AppV1.handleStart 100 0 AppV1.mkState) c5Moves))).targetScroll -
        AppV1.mkState.targetScroll| < 1/10 :=
  ⟨⟨rfl, by norm_num⟩,
   C5_amended_idle_decay_to_zero AppV1.mkState 100 0 c5Moves (1/10) rfl (by norm_num)⟩

theorem ClickVariant.countP_map_stop (l : List ClickVariant.ClipAction) :
    List.countP (fun a => a.playing) (l.map ClickVariant.stopAction) = 0 := by
  induction l with
  | nil => rfl
  | cons a as ih => simp [ClickVariant.stopAction, List.countP_cons, ih]

theorem ClickVariant.countP_set_stop (l : List ClickVariant.ClipAction) (i : ℕ) :
    List.countP (fun a => a.playing)
        (l.set i (ClickVariant.stopAction (l.getD i ClickVariant.freshAction))) ≤
      List.countP (fun a => a.playing) l := by
  induction l generalizing i with
  | nil => simp
  | cons a as ih =>
    cases i with
    | zero =>
      simp [ClickVariant.stopAction, List.countP_cons]
    | succ j =>
      simp only [List.set, List.getD_cons_succ, List.countP_cons]
      exact Nat.add_le_add_right (ih j) _

theorem ClickVariant.handleClick_playInv (hasA hasM : Bool) (s : ClickVariant.State)
    (h : ClickVariant.PlayInv s) :
    ClickVariant.PlayInv (ClickVariant.handleClick hasA hasM s) := by
  obtain ⟨hc, hd⟩ := h
  by_cases hb : hasA = true ∧ hasM = true
  · rcases hs : s.actionsList with _ | ⟨a, as⟩
    · refine ⟨?_, Or.inl ?_⟩ <;>
        simp [ClickVariant.handleClick, hb, hs, ClickVariant.countPlaying,
              ClickVariant.playOnceAction]
    · have hfb : s.fallback = none := by
        rcases hd with hnil | hfb
        · rw [hs] at hnil
          exact absurd hnil (by simp)
        · exact hfb
      refine ⟨?_, Or.inr ?_⟩ <;>
        simp [ClickVariant.handleClick, hb, hs, hfb, ClickVariant.countPlaying,
              ClickVariant.playOnceAction, ClickVariant.stopAction, List.countP_cons,
              ClickVariant.countP_map_stop]
  · have hid : ClickVariant.handleClick hasA hasM s = s := by
      simp [ClickVariant.handleClick, hb]
    rw [hid]
    exact ⟨hc, hd⟩

theorem ClickVariant.tstep_playInv (hasA hasM : Bool) (e : ClickVariant.TEvent)
    (s : ClickVariant.State) (h : ClickVariant.PlayInv s) :
    ClickVariant.PlayInv (ClickVariant.tstep hasA hasM e s) := by
  obtain ⟨hc, hd⟩ := h
  cases e with
  | click => exact ClickVariant.handleClick_playInv hasA hasM s ⟨hc, hd⟩
  | finishNamed i =>
    refine ⟨?_, ?_⟩
    · have hle := ClickVariant.countP_set_stop s.actionsList i
      simp only [ClickVariant.tstep, ClickVariant.countPlaying] at hc ⊢
      omega
    · rcases hd with hnil | hfb
      · left
        simp [ClickVariant.tstep, hnil]
      · right
        simp [ClickVariant.tstep, hfb]
  | finishFallback =>
    refine ⟨?_, ?_⟩
    · cases hf : s.fallback with
      | none =>
        simp only [ClickVariant.tstep, ClickVariant.countPlaying, hf, Option.map_none'] at hc ⊢
        omega
      | some a =>
        simp only [ClickVariant.tstep, ClickVariant.countPlaying, hf,
                   Option.map_some'] at hc ⊢
        simp [ClickVariant.stopAction]
        omega
    · rcases hd with hnil | hfb
      · left
        simp [ClickVariant.tstep, hnil]
      · right
        simp [ClickVariant.tstep, hfb]

theorem ClickVariant.trun_playInv (hasA hasM : Bool) (es : List ClickVariant.TEvent)
    (s : ClickVariant.State) (h : ClickVariant.PlayInv s) :
    ClickVariant.PlayInv (ClickVariant.trun hasA hasM s es) := by
  induction es generalizing s with
  | nil => exact h
  | cons e es ih => exact ih _ (ClickVariant.tstep_playInv hasA hasM e s h)

/-- Claim C9: each qualifying trigger gesture first stops every clip action in
the actions record before starting a new playback, the new playback is
configured play-once (`LoopOnce`), clamped at the last frame, with a fade-in —
and starting from the freshly mounted state (no action playing, no fallback
action yet), after any sequence of clicks and playback-finished notifications
at most one clip action is playing. -/
theorem C9_at_most_one_playing (hasA hasM : Bool)
    (initActions : List ClickVariant.ClipAction)
    (hinit : ∀ a ∈ initActions, a.playing = false) (es : List ClickVariant.TEvent)
    (st : ClickVariant.State) (a : ClickVariant.ClipAction) :
    ClickVariant.countPlaying
        (ClickVariant.trun hasA hasM { actionsList := initActions, fallback := none } es) ≤ 1 ∧
    (∀ b ∈ st.actionsList.map ClickVariant.stopAction, b.playing = false) ∧
    ((ClickVariant.playOnceAction a).loopOnce = true ∧
      (ClickVariant.playOnceAction a).clampWhenFinished = true ∧
      (ClickVariant.playOnceAction a).fadedIn = true ∧
      (ClickVariant.playOnceAction a).playing = true) ∧
    (hasA = true → hasM = true →
      ∀ (x : ClickVariant.ClipAction) (rest : List ClickVariant.ClipAction),
        st.actionsList.map ClickVariant.stopAction = x :: rest →
        (ClickVariant.handleClick hasA hasM st).actionsList =
          ClickVariant.playOnceAction x :: rest) := by
  refine ⟨?_, ?_, ⟨rfl, rfl, rfl, rfl⟩, ?_⟩
  · have hinv : ClickVariant.PlayInv { actionsList := initActions, fallback := none } := by
      constructor
      · simp only [ClickVariant.countPlaying]
        have : List.countP (fun a => a.playing) initActions = 0 :=
          List.countP_eq_zero.mpr (by simpa using hinit)
        simp [this]
      · exact Or.inr rfl
    exact (ClickVariant.trun_playInv hasA hasM es _ hinv).1
  · intro b hb
    simp only [List.mem_map] at hb
    obtain ⟨c, -, rfl⟩ := hb
    rfl
  · intro ha hm x rest hmap
    simp [ClickVariant.handleClick, ha, hm, hmap]

/-- Witness for C9: one fresh (stopped) named action, two re-entrant clicks
with an interleaved finish notification. -/
theorem C9_at_most_one_playing_witness :
    (∀ a ∈ [ClickVariant.freshAction], a.playing = false) ∧
    (ClickVariant.countPlaying
        (ClickVariant.trun true true
          { actionsList := [ClickVariant.freshAction], fallback := none }
          [ClickVariant.TEvent.click, ClickVariant.TEvent.click,
           ClickVariant.TEvent.finishNamed 0, ClickVariant.TEvent.click]) ≤ 1 ∧
      (∀ b ∈ ([ClickVariant.freshAction].map ClickVariant.stopAction :
          List ClickVariant.ClipAction), b.playing = false) ∧
      ((ClickVariant.playOnceAction ClickVariant.freshAction).loopOnce = true ∧
        (ClickVariant.playOnceAction ClickVariant.freshAction).clampWhenFinished = true ∧
        (ClickVariant.playOnceAction ClickVariant.freshAction).fadedIn = true ∧
        (ClickVariant.playOnceAction ClickVariant.freshAction).playing = true) ∧
      (true = true → true = true →
        ∀ (x : ClickVariant.ClipAction) (rest : List ClickVariant.ClipAction),
          ({ actionsList := [ClickVariant.freshAction], fallback := none } :
              ClickVariant.State).actionsList.map ClickVariant.stopAction = x :: rest →
          (ClickVariant.handleClick true true
              { actionsList := [ClickVariant.freshAction], fallback := none }).actionsList =
            ClickVariant.playOnceAction x :: rest)) :=
  ⟨by decide,
   C9_at_most_one_playing true true [ClickVariant.freshAction] (by decide)
     [ClickVariant.TEvent.click, ClickVariant.TEvent.click,
      ClickVariant.TEvent.finishNamed 0, ClickVariant.TEvent.click]
     { actionsList := [ClickVariant.freshAction], fallback := none }
     ClickVariant.freshAction⟩
